import Mathlib

/-! hannahs_blog_be: error pipeline, article and comment data access

A shallow embedding of `app.js`, `models/articles.model.js`,
`models/comments.model.js` and the controllers that call them.

* A promise is an `Except Err α`: `.ok` is a resolved value, `.error` a rejection.
* `db.query(text, values)` is modelled in two parts: the call itself is recorded
  (`SqlCall`, with the text and the bound values exactly as the source builds them),
  and the rows the database answers are computed by a function over the tables (`DB`).
* Request data arrive as text: path and query parameters are `String`s, an absent
  query parameter or body field (`undefined`) is `none`.
-/

namespace Blog

/-! ## Rows of the tables -/

/-- Modelled from the spec: a row of the `topics` table (the schema is not in the
sources; the columns are those of the data model, section 3 of the specification). -/
structure Topic where
  slug : String
  description : String
deriving DecidableEq, Repr

/-- Modelled from the spec: a row of the `users` table. -/
structure User where
  username : String
  name : String
  avatar_url : String
deriving DecidableEq, Repr

/-- Modelled from the spec: a row of the `articles` table. Integers are unbounded and
`created_at` is a point in time counted from some epoch. -/
structure Article where
  article_id : Int
  title : String
  topic : String
  body : String
  created_at : Nat
  votes : Int
  article_img_url : String
deriving DecidableEq, Repr

/-- Modelled from the spec: a row of the `comments` table. -/
structure Comment where
  comment_id : Int
  body : String
  author : String
  article_id : Int
  votes : Int
  created_at : Nat
deriving DecidableEq, Repr

/-! ## Errors and responses -/

/-- An error object as the error pipeline of `app.js` inspects it: the fields `code`,
`status` and `msg`, each possibly absent (`undefined`). -/
structure Err where
  code : Option String := none
  status : Option Nat := none
  msg : Option String := none
deriving DecidableEq, Repr

/-- A row of the `articles` listing: the columns selected by `selectArticles` and
`selectArticleById`, with the derived `comment_count`. -/
structure ArticleRow where
  article_id : Int
  title : String
  topic : String
  body : String
  created_at : Nat
  votes : Int
  article_img_url : String
  comment_count : Nat
deriving DecidableEq, Repr

/-- A row of the comments listing: the columns selected by `selectCommentsByArticleId`. -/
structure CommentRow where
  comment_id : Int
  votes : Int
  created_at : Nat
  author : String
  body : String
deriving DecidableEq, Repr

/-- The body passed to `response.send`: nothing, `{msg}`, `{articles}`, `{comments}`,
`{article}` or `{comment}` (a full row of the table, as `RETURNING *` yields it), or
`{article}` with its `comment_count`. -/
inductive Body where
  | empty
  | msg (m : Option String)
  | articles (rows : List ArticleRow)
  | comments (rows : List CommentRow)
  | article (row : Article)
  | comment (row : Comment)
  | articleWithCount (row : ArticleRow)
deriving DecidableEq, Repr

/-- What `response.status(s).send(b)` produces: the status and the body handed to `send`
(of which a HEAD request is sent the status and headers only). -/
structure Response where
  status : Nat
  body : Body
deriving DecidableEq, Repr

/-- What an error-handling middleware does with an error: answer, or hand an error to the
next error-handling middleware. The error handed on is the one received (`next(err)`) or,
when the middleware throws, the exception, which Express catches and hands on. -/
inductive Step where
  | send (r : Response)
  | next (err : Err)
deriving DecidableEq, Repr

/-- The test `if (x)` of JavaScript on a possibly absent number: absent and `0` are falsy. -/
def truthyNat : Option Nat → Bool
  | some n => n != 0
  | none => false

/-- First error middleware, `app.js` lines 47-53. -/
def handle22P02 (err : Err) : Step :=
  if err.code = some "22P02" then
    .send ⟨400, .msg (some "You have made a bad request")⟩
  else .next err

/-- Second error middleware, `app.js` lines 55-61. -/
def handle23503 (err : Err) : Step :=
  if err.code = some "23503" then
    .send ⟨404, .msg (some "Value not found in the database")⟩
  else .next err

/-- Third error middleware, `app.js` lines 63-69. -/
def handle42703 (err : Err) : Step :=
  if err.code = some "42703" then
    .send ⟨400, .msg (some "You have made a bad request")⟩
  else .next err

/-- The exception Node raises when a response is sent with a status code outside 100..999;
it carries a `code` and neither `status` nor `msg`. -/
def invalidStatusCode : Err :=
  { code := some "ERR_HTTP_INVALID_STATUS_CODE" }

/-- Fourth error middleware, `app.js` lines 71-77: `if (err.status)`. With a status that
is no HTTP status code (outside 100..999), `response.status(err.status).send(...)` throws
before anything is sent, and the exception goes to the next error middleware. -/
def handleStatus (err : Err) : Step :=
  if truthyNat err.status then
    if 100 ≤ err.status.getD 0 ∧ err.status.getD 0 ≤ 999 then
      .send ⟨err.status.getD 0, .msg err.msg⟩
    else .next invalidStatusCode
  else .next err

/-- Last error middleware, `app.js` lines 79-81. -/
def handle500 (_err : Err) : Step :=
  .send ⟨500, .msg (some "Something went wrong!")⟩

/-- The error middlewares in registration order. -/
def errorHandlers : List (Err → Step) :=
  [handle22P02, handle23503, handle42703, handleStatus, handle500]

/-- Express runs the error middlewares in order until one answers; the result is the list
of responses sent for the error. -/
def runHandlers : List (Err → Step) → Err → List Response
  | [], _ => []
  | h :: hs, err =>
    match h err with
    | .send r => [r]
    | .next err' => runHandlers hs err'

/-- The error pipeline of the application. -/
def errorPipeline (err : Err) : List Response :=
  runHandlers errorHandlers err

/-- The status of an error is absent or an HTTP error status (400 to 599). Every error
this application hands to the pipeline is of this kind: the rejections of the models carry
400 or 404, the errors of the database and the exceptions of JavaScript carry no status,
those of the middleware and of the router carry a 4xx status. -/
def Err.wellFormed (err : Err) : Prop :=
  ∀ s, err.status = some s → 400 ≤ s ∧ s ≤ 599

/-! ## The database -/

/-- Modelled from the spec: the state of the database, its four tables. -/
structure DB where
  topics : List Topic := []
  users : List User := []
  articles : List Article := []
  comments : List Comment := []
deriving DecidableEq, Repr

/-- Primary keys: no two articles share an `article_id`, no two comments a `comment_id`. -/
def DB.keysUnique (db : DB) : Prop :=
  (db.articles.map (·.article_id)).Nodup ∧ (db.comments.map (·.comment_id)).Nodup

/-- Foreign key of the data model: the topic of every article is the slug of a topic. -/
def DB.topicsKnown (db : DB) : Prop :=
  ∀ a ∈ db.articles, a.topic ∈ db.topics.map (·.slug)

/-- Foreign key of the data model: the article of every comment is an article of the
table. -/
def DB.commentsKnown (db : DB) : Prop :=
  ∀ c ∈ db.comments, ∃ a ∈ db.articles, a.article_id = c.article_id

/-- A call `db.query(text, values)`: the statement text and the bound values. -/
structure SqlCall where
  text : String
  values : List String
deriving DecidableEq, Repr

/-- The outcome of a data-access function together with the queries it issued, in order. -/
structure Run (α : Type) where
  outcome : Except Err α
  calls : List SqlCall

/-- The outcome of a data-access function that writes: also the state it leaves. -/
structure Mut (α : Type) where
  outcome : Except Err α
  calls : List SqlCall
  db : DB

/-- What a handler that writes does: the responses sent and the state left. -/
structure Served where
  responses : List Response
  db : DB
deriving DecidableEq, Repr

/-- A value of a JSON request body, as far as `inc_votes` is concerned: a whole number or
a text. -/
inductive Json where
  | num (n : Int)
  | str (s : String)
deriving DecidableEq, Repr

/-- The text the driver sends for a bound value. -/
def Json.text : Json → String
  | .num n => toString n
  | .str s => s

/-- An error raised by the database: it carries an SQLSTATE `code` and neither `status`
nor `msg`. -/
def pgError (code : String) : Err := { code := some code }

/-- Text without its leading and trailing white space. -/
def trimBlanks (cs : List Char) : List Char :=
  ((cs.dropWhile Char.isWhitespace).reverse.dropWhile Char.isWhitespace).reverse

/-- A non-empty run of decimal digits. -/
def isDigits (cs : List Char) : Bool :=
  !cs.isEmpty && cs.all Char.isDigit

/-- The number written by a run of decimal digits. -/
def digitsValue (cs : List Char) : Nat :=
  cs.foldl (fun n c => 10 * n + (c.toNat - 48)) 0

/-- Modelled from the spec: the integer the database reads from the text bound to an
integer column ("id must be numeric"): optional white space around an optional sign and
a run of decimal digits. Any other text is refused (by the caller, with SQLSTATE 22P02). -/
def pgInt (s : String) : Option Int :=
  match trimBlanks s.data with
  | '-' :: ds => if isDigits ds then some (-(digitsValue ds : Int)) else none
  | '+' :: ds => if isDigits ds then some (digitsValue ds : Int) else none
  | ds => if isDigits ds then some (digitsValue ds : Int) else none

/-- Modelled from the spec: the integer the database reads from a value bound to an
integer column: a number is itself, a text is read by `pgInt`. -/
def pgIntOf : Json → Option Int
  | .num n => some n
  | .str s => pgInt s

/-- Modelled from the spec: how the database reads, when it prepares the statement, the
text that the source interpolates after `LIMIT` or `OFFSET`. A run of digits, with or
without a minus sign, is an integer. Blank text leaves the clause without operand, a syntax
error (SQLSTATE 42601). Any other text is read as the name of a column that does not exist
(42703), which is what the test-suite observes for `not-valid` and `delete`; the
statements below use this last reading only at those two words. -/
def pgOperand (text : String) : Except Err Int :=
  match trimBlanks text.data with
  | [] => .error (pgError "42601")
  | '-' :: ds =>
    if isDigits ds then .ok (-(digitsValue ds : Int)) else .error (pgError "42703")
  | ds => if isDigits ds then .ok (digitsValue ds : Int) else .error (pgError "42703")

/-- The operands of `LIMIT` and `OFFSET`, read in statement order. A statement that does
not prepare fails whatever the tables hold. -/
def pgWindow (limit p : String) : Except Err (Int × Int) :=
  match pgOperand limit with
  | .error e => .error e
  | .ok l =>
    match pgOperand p with
    | .error e => .error e
    | .ok o => .ok (l, o)

/-- Modelled from the spec: `LIMIT l OFFSET o` applied to the ordered rows when the
statement runs: a negative offset (SQLSTATE 2201X) or limit (2201W) is refused, otherwise
`o` rows are skipped and at most `l` rows returned. -/
def pgSlice {α : Type} (l o : Int) (rows : List α) : Except Err (List α) :=
  if o < 0 then .error (pgError "2201X")
  else if l < 0 then .error (pgError "2201W")
  else .ok ((rows.drop o.toNat).take l.toNat)

/-- The row `articles LEFT JOIN comments ... GROUP BY articles.article_id` yields for an
article: its columns and `COUNT(comment_id)`. -/
def articleRow (db : DB) (a : Article) : ArticleRow :=
  { article_id := a.article_id, title := a.title, topic := a.topic, body := a.body,
    created_at := a.created_at, votes := a.votes, article_img_url := a.article_img_url,
    comment_count := (db.comments.filter (fun c => c.article_id = a.article_id)).length }

/-- The columns `selectArticles` accepts after `ORDER BY`. -/
def sortFields : List String :=
  ["article_id", "title", "topic", "body", "created_at", "votes", "comment_count"]

/-- Comparison of two listing rows on one output column. -/
def fieldLe (field : String) (a b : ArticleRow) : Bool :=
  if field = "article_id" then decide (a.article_id ≤ b.article_id)
  else if field = "title" then decide (a.title ≤ b.title)
  else if field = "topic" then decide (a.topic ≤ b.topic)
  else if field = "body" then decide (a.body ≤ b.body)
  else if field = "created_at" then decide (a.created_at ≤ b.created_at)
  else if field = "votes" then decide (a.votes ≤ b.votes)
  else decide (a.comment_count ≤ b.comment_count)

/-- The relation `ORDER BY field dir` sorts by: `dir` is `ASC` or `DESC`. -/
def orderedBy (field dir : String) (a b : ArticleRow) : Prop :=
  if dir = "DESC" then fieldLe field b a = true else fieldLe field a b = true

instance (field dir : String) : DecidableRel (orderedBy field dir) := fun a b => by
  unfold orderedBy
  exact inferInstance

/-- The articles the listing statement keeps: those whose topic is the bound value when
there is a WHERE clause, all of them otherwise. -/
def keptArticles (db : DB) : Option String → List Article
  | some t => db.articles.filter (fun a => decide (a.topic = t))
  | none => db.articles

/-- The kept articles, counted with their comments and sorted; rows with equal keys keep
their table order. -/
def orderedRows (db : DB) (topic : Option String) (field dir : String) : List ArticleRow :=
  ((keptArticles db topic).map (articleRow db)).insertionSort (orderedBy field dir)

/-- Modelled from the spec: the rows the database answers to the listing statement of
`selectArticles`. The statement is prepared first (operands of LIMIT and OFFSET); then the
kept articles, counted and sorted, are cut to the window. -/
def queryArticles (db : DB) (topic : Option String) (field dir limit p : String) :
    Except Err (List ArticleRow) :=
  match pgWindow limit p with
  | .error e => .error e
  | .ok (l, o) => pgSlice l o (orderedRows db topic field dir)

/-- The columns of a comment that `selectCommentsByArticleId` selects. -/
def commentRow (c : Comment) : CommentRow :=
  { comment_id := c.comment_id, votes := c.votes, created_at := c.created_at,
    author := c.author, body := c.body }

/-- Modelled from the spec: the rows the database answers to the statement of
`selectCommentsByArticleId`. The statement is prepared first (operands of LIMIT and
OFFSET), then the bound text is read as an integer (refused with SQLSTATE 22P02 otherwise);
the comments of that article, newest first, are cut to the window. -/
def queryComments (db : DB) (article_id limit p : String) : Except Err (List CommentRow) :=
  match pgWindow limit p with
  | .error e => .error e
  | .ok (l, o) =>
    match pgInt article_id with
    | none => .error (pgError "22P02")
    | some n =>
      pgSlice l o
        (((db.comments.filter (fun c => decide (c.article_id = n))).insertionSort
          (fun a b => b.created_at ≤ a.created_at)).map commentRow)

/-- Modelled from the spec: `SELECT ... FROM articles LEFT JOIN comments ... WHERE
articles.article_id = $1 GROUP BY articles.article_id`: the bound text is read as an
integer (refused with SQLSTATE 22P02 otherwise); the articles with that id, counted with
their comments. -/
def queryArticleById (db : DB) (article_id : String) : Except Err (List ArticleRow) :=
  match pgInt article_id with
  | none => .error (pgError "22P02")
  | some n => .ok ((db.articles.filter (fun a => decide (a.article_id = n))).map (articleRow db))

/-- Modelled from the spec: `UPDATE articles SET votes = votes + $1 WHERE article_id = $2
RETURNING *`: both bound values are read as integers (refused with SQLSTATE 22P02
otherwise); every article with that id gets the delta added to its votes; the rows
answered are the updated articles. -/
def queryUpdateArticleVotes (db : DB) (votes : Json) (article_id : String) :
    Except Err (List Article × DB) :=
  match pgIntOf votes, pgInt article_id with
  | some d, some n =>
    let articles := db.articles.map
      (fun a => if a.article_id = n then { a with votes := a.votes + d } else a)
    .ok (articles.filter (fun a => decide (a.article_id = n)), { db with articles := articles })
  | _, _ => .error (pgError "22P02")

/-- Modelled from the spec: `UPDATE comments SET votes = votes + $1 WHERE comment_id = $2
RETURNING *`, as for articles. -/
def queryUpdateCommentVotes (db : DB) (votes : Json) (comment_id : String) :
    Except Err (List Comment × DB) :=
  match pgIntOf votes, pgInt comment_id with
  | some d, some n =>
    let comments := db.comments.map
      (fun c => if c.comment_id = n then { c with votes := c.votes + d } else c)
    .ok (comments.filter (fun c => decide (c.comment_id = n)), { db with comments := comments })
  | _, _ => .error (pgError "22P02")

/-- Modelled from the spec: `DELETE FROM comments WHERE comment_id = $1 RETURNING *`: the
bound text is read as an integer (refused with SQLSTATE 22P02 otherwise); the comments
with that id leave the table and are the rows answered. -/
def queryDeleteComment (db : DB) (comment_id : String) : Except Err (List Comment × DB) :=
  match pgInt comment_id with
  | none => .error (pgError "22P02")
  | some n =>
    .ok (db.comments.filter (fun c => decide (c.comment_id = n)),
      { db with comments := db.comments.filter (fun c => !decide (c.comment_id = n)) })

/-! ## `models/articles.model.js` -/

/-- The rejection `articles.model.js` lines 17-20, 35-38 and 107-110 produce. -/
def articleNotFound : Err :=
  { status := some 404, msg := some "article_id not found in the database" }

/-- `selectArticleById`, `articles.model.js` lines 3-23. -/
def selectArticleById (db : DB) (article_id : String) : Run ArticleRow :=
  let calls := [⟨"SELECT articles.article_id, title, topic, articles.body, articles.created_at, articles.votes, articles.article_img_url, COUNT(comment_id) ::INT AS comment_count FROM articles LEFT JOIN comments ON articles.article_id = comments.article_id WHERE articles.article_id = $1 GROUP BY articles.article_id;",
    [article_id]⟩]
  match queryArticleById db article_id with
  | .error e => ⟨.error e, calls⟩
  | .ok [row] => ⟨.ok row, calls⟩
  | .ok _ => ⟨.error articleNotFound, calls⟩

/-- `updateArticleVotes`, `articles.model.js` lines 25-41; an absent `votes` takes the
default `0`. -/
def updateArticleVotes (db : DB) (article_id : String) (votes : Option Json) : Mut Article :=
  let votes := votes.getD (.num 0)
  let calls := [⟨"UPDATE articles SET votes = votes + $1 WHERE article_id = $2 RETURNING *",
    [votes.text, article_id]⟩]
  match queryUpdateArticleVotes db votes article_id with
  | .error e => ⟨.error e, calls, db⟩
  | .ok ([row], db') => ⟨.ok row, calls, db'⟩
  | .ok (_, db') => ⟨.error articleNotFound, calls, db'⟩


/-- The characters outside `a` to `z` whose upper case, under the default case conversion
of Unicode that `String.prototype.toUpperCase` applies, holds a letter `A` to `Z`, each with
its upper case; characters are given by their code points. Among them are the sharp s
(223, `SS`), the dotless i (305, `I`), the long s (383, `S`) and the ligatures 64256 to
64262 (`FF`, `FI`, `FL`, `FFI`, `FFL`, `ST`, `ST`). -/
def specialUpper : List (Nat × List Char) :=
  [ (223, ['S', 'S']), (305, ['I']), (329, [Char.ofNat 700, 'N']), (383, ['S']),
    (496, ['J', Char.ofNat 780]), (7830, ['H', Char.ofNat 817]),
    (7831, ['T', Char.ofNat 776]), (7832, ['W', Char.ofNat 778]),
    (7833, ['Y', Char.ofNat 778]), (7834, ['A', Char.ofNat 702]),
    (64256, ['F', 'F']), (64257, ['F', 'I']), (64258, ['F', 'L']),
    (64259, ['F', 'F', 'I']), (64260, ['F', 'F', 'L']), (64261, ['S', 'T']),
    (64262, ['S', 'T']) ]

/-- The entry of a code point in a table of upper cases. -/
def specialOf (k : Nat) : List (Nat × List Char) → Option (List Char)
  | [] => none
  | (k', l) :: rest => if k = k' then some l else specialOf k rest

/-- The upper case of one character: the entry of the table, else the capital of a letter
`a` to `z`, else the character itself. -/
def upperOf (c : Char) : List Char :=
  match specialOf c.toNat specialUpper with
  | some l => l
  | none => [c.toUpper]

/-- `String.prototype.toUpperCase`: exact on ASCII and on every character whose upper case
holds a letter `A` to `Z`. Any other character is left as it is; its upper case in
JavaScript may be another character, but holds no letter `A` to `Z` either, so the
comparison with `ASC` and `DESC` and every text that passes it are those of the source. -/
def toUpperCase (s : String) : String :=
  ⟨s.data.flatMap upperOf⟩

/-- A text with its letters `a` to `z` in capitals and every other character as it is: the
way the router canonicalises a character when it compares without regard to case. -/
def upperAscii (s : String) : String :=
  ⟨s.data.map Char.toUpper⟩

/-- The test `if (x)` of JavaScript on a possibly absent string: absent and empty are
falsy. -/
def truthyStr : Option String → Bool
  | some s => s != ""
  | none => false

/-- `array.includes(x)` for an array of strings and a possibly absent `x`. -/
def includes (xs : List String) : Option String → Bool
  | some s => xs.contains s
  | none => false

/-- The constant head of the listing statement, `articles.model.js` line 64. -/
def articlesSelect : String :=
  "SELECT articles.article_id, title, topic, articles.body, articles.created_at, articles.votes, articles.article_img_url, COUNT(comment_id) ::INT AS comment_count FROM articles LEFT JOIN comments ON articles.article_id = comments.article_id"

/-- The rejection `articles.model.js` line 91 (and line 120) produces. -/
def badRequest : Err :=
  { status := some 400, msg := some "You have made a bad request" }

/-- The rejection `articles.model.js` lines 81-84 produces. -/
def topicNotFound : Err :=
  { status := some 404, msg := some "You have made a bad request - this topic does not exist" }

/-- `selectArticles`, `articles.model.js` lines 43-93. The parameters keep the names of
the source: `sortQuery` receives the `order` of the request and `orderQuery` its
`sort_by` (`getArticles` passes them in that position). -/
def selectArticles (db : DB) (topicFilter sortQuery orderQuery limit p : Option String) :
    Run (List ArticleRow) :=
  let sortQuery := toUpperCase (sortQuery.getD "desc")
  let orderQuery := orderQuery.getD "created_at"
  let limit := limit.getD "10"
  let p := p.getD "0"
  if ["ASC", "DESC"].contains sortQuery && sortFields.contains orderQuery then
    let filtered := truthyStr topicFilter
    let queryString := articlesSelect ++ (if filtered then " WHERE topic = $1" else "")
      ++ " GROUP BY articles.article_id ORDER BY " ++ orderQuery ++ " " ++ sortQuery
      ++ " LIMIT " ++ limit ++ " OFFSET " ++ p
    let valueArray := if filtered then [topicFilter.getD ""] else []
    let calls := [⟨"SELECT slug FROM topics", []⟩, ⟨queryString, valueArray⟩]
    let topicsArray := db.topics.map (·.slug)
    match queryArticles db (if filtered then topicFilter else none) orderQuery sortQuery
        limit p with
    | .error e => ⟨.error e, calls⟩
    | .ok rows =>
      if rows.length = 0 && !includes topicsArray topicFilter then
        ⟨.error topicNotFound, calls⟩
      else ⟨.ok rows, calls⟩
  else ⟨.error badRequest, []⟩

/-- `selectCommentsByArticleId`, `articles.model.js` lines 95-116. `idArray` holds the ids
of the articles written as text, and `article_id` is the path parameter as received. -/
def selectCommentsByArticleId (db : DB) (article_id : String) (limit p : Option String) :
    Run (List CommentRow) :=
  let limit := limit.getD "10"
  let p := p.getD "0"
  let idArray := db.articles.map (fun a => toString a.article_id)
  let calls := [⟨"SELECT article_id FROM articles", []⟩,
    ⟨"SELECT comment_id, votes, created_at, author, body FROM comments WHERE article_id = $1 ORDER BY created_at DESC LIMIT "
      ++ limit ++ " OFFSET " ++ p, [article_id]⟩]
  match queryComments db article_id limit p with
  | .error e => ⟨.error e, calls⟩
  | .ok rows =>
    if rows.length = 0 && !idArray.contains article_id then
      ⟨.error articleNotFound, calls⟩
    else ⟨.ok rows, calls⟩

/-! ## `models/comments.model.js` -/

/-- The rejection `comments.model.js` lines 12-15 and 30-33 produce. -/
def commentNotFound : Err :=
  { status := some 404, msg := some "comment_id not found in the database" }

/-- `deleteComment`, `comments.model.js` lines 3-18. -/
def deleteComment (db : DB) (comment_id : String) : Mut (List Comment) :=
  let calls := [⟨"DELETE FROM comments WHERE comment_id = $1 RETURNING *", [comment_id]⟩]
  match queryDeleteComment db comment_id with
  | .error e => ⟨.error e, calls, db⟩
  | .ok (rows, db') =>
    if rows.length = 1 then ⟨.ok rows, calls, db'⟩
    else ⟨.error commentNotFound, calls, db'⟩

/-- `updateCommentVotes`, `comments.model.js` lines 20-36; an absent `votes` takes the
default `0`. -/
def updateCommentVotes (db : DB) (comment_id : String) (votes : Option Json) : Mut Comment :=
  let votes := votes.getD (.num 0)
  let calls := [⟨"UPDATE comments SET votes = votes + $1 WHERE comment_id = $2 RETURNING *",
    [votes.text, comment_id]⟩]
  match queryUpdateCommentVotes db votes comment_id with
  | .error e => ⟨.error e, calls, db⟩
  | .ok ([row], db') => ⟨.ok row, calls, db'⟩
  | .ok (_, db') => ⟨.error commentNotFound, calls, db'⟩

/-! ## `controllers/articles.controller.js` -/

/-- The pattern of every controller: `.then(x => response.status(s).send(...))` on a
resolved promise, `.catch(err => next(err))` on a rejected one, which hands the error to
the error pipeline. The result is the list of responses sent for the request. -/
def respond {α : Type} (status : Nat) (body : α → Body) : Except Err α → List Response
  | .ok x => [⟨status, body x⟩]
  | .error e => errorPipeline e

/-- `getArticles`, `articles.controller.js` lines 33-47; the arguments are the query
parameters `topic`, `order`, `sort_by`, `limit` and `p`. -/
def getArticles (db : DB) (topic order sort_by limit p : Option String) : List Response :=
  respond 200 Body.articles (selectArticles db topic order sort_by limit p).outcome

/-- `getCommentsByArticleId`, `articles.controller.js` lines 49-61. -/
def getCommentsByArticleId (db : DB) (article_id : String) (limit p : Option String) :
    List Response :=
  respond 200 Body.comments (selectCommentsByArticleId db article_id limit p).outcome

/-- `patchArticleVotesById`, `articles.controller.js` lines 20-31; `inc_votes` is the field
of the request body. -/
def patchArticleVotesById (db : DB) (article_id : String) (inc_votes : Option Json) :
    Served :=
  let r := updateArticleVotes db article_id inc_votes
  ⟨respond 200 Body.article r.outcome, r.db⟩

/-! ## `controllers/comments.controller.js` -/

/-- `removeComment`, `comments.controller.js` lines 6-16: `response.status(204).send()`. -/
def removeComment (db : DB) (comment_id : String) : Served :=
  let r := deleteComment db comment_id
  ⟨respond 204 (fun _ => Body.empty) r.outcome, r.db⟩

/-- `patchCommentVotes`, `comments.controller.js` lines 18-29. -/
def patchCommentVotes (db : DB) (comment_id : String) (inc_votes : Option Json) : Served :=
  let r := updateCommentVotes db comment_id inc_votes
  ⟨respond 200 Body.comment r.outcome, r.db⟩

/-- A query parameter that is absent or a run of decimal digits. -/
def absentOrDigits : Option String → Bool
  | none => true
  | some s => isDigits s.data

/-- Case folding of Unicode for the characters that fold to a letter `a` to `z`: the
capitals, the long s (383, to `s`) and the Kelvin sign (8490, to `k`); any other character
is left as it is here. -/
def caseFold (c : Char) : Char :=
  if c.toNat = 383 then 's'
  else if c.toNat = 8490 then 'k'
  else c.toLower

/-- A text equals a word of small letters when compared without regard to case: after case
folding they are the same. -/
def sameWord (cs ls : List Char) : Prop :=
  cs.map caseFold = ls

/-- The words of the specification for the order: it is `asc` or `desc`, compared without
regard to case. -/
def isAscOrDesc (order : String) : Prop :=
  sameWord order.data "asc".data ∨ sameWord order.data "desc".data

/-- The letters of `ASC` and `DESC`. -/
def orderLetters : List Char := ['A', 'S', 'C', 'D', 'E']

/-- A small database for the examples: three topics (one without articles), two users,
three articles, two comments on article 1. -/
def sampleDb : DB :=
  { topics := [⟨"mitch", "The man"⟩, ⟨"cats", "Not dogs"⟩, ⟨"paper", "what books are made of"⟩]
    users := [⟨"butter_bridge", "jonny", "u1"⟩, ⟨"icellusedkars", "sam", "u2"⟩]
    articles :=
      [ ⟨1, "Living in the shadow of a great man", "mitch", "I find this existence challenging",
          1594329060, 100, "i1"⟩,
        ⟨5, "UNCOVERED: catspiracy to bring down democracy", "cats", "Bastet walks amongst us",
          1596464040, 0, "i5"⟩,
        ⟨11, "Am I a cat?", "mitch", "Having run out of ideas for articles", 1579126860, 0,
          "i11"⟩ ]
    comments :=
      [ ⟨2, "The beautiful thing about treasure is that it exists.", "butter_bridge", 1, 14,
          1604113380⟩,
        ⟨5, "I hate streaming noses", "icellusedkars", 1, 0, 1604437200⟩ ] }

/-- The sample database with one more topic, whose slug is the empty text and which has
no article. -/
def sampleDbEmptySlug : DB :=
  { sampleDb with topics := ⟨"", "no name"⟩ :: sampleDb.topics }

/-! ## Posting a comment: `insertComments` and `postCommentsByArticleId` -/

/-- Modelled from the spec: the values the database supplies for a new comment: the next
value of the id sequence and the current time ("a generated id"). -/
structure Generated where
  comment_id : Int
  created_at : Nat
deriving DecidableEq, Repr

/-- Modelled from the spec: `SELECT * FROM users WHERE username = $1`. -/
def queryUsersByUsername (db : DB) (username : String) : List User :=
  db.users.filter (fun u => decide (u.username = username))

/-- Modelled from the spec: `INSERT INTO comments (body, author, article_id) VALUES ($1,
$2, $3) RETURNING *`. The third bound text is read as an integer (refused with SQLSTATE
22P02 otherwise). A generated id already in use violates the primary key (23505); an
author that is no user or an article id that is no article violates a foreign key (23503).
Otherwise the new comment, with the generated id and time and with zero votes, joins the
table and is the row answered. -/
def queryInsertComment (db : DB) (gen : Generated) (body author article_id : String) :
    Except Err (Comment × DB) :=
  match pgInt article_id with
  | none => .error (pgError "22P02")
  | some n =>
    if (db.comments.map (·.comment_id)).contains gen.comment_id then
      .error (pgError "23505")
    else if !(db.users.map (·.username)).contains author
        || !(db.articles.map (·.article_id)).contains n then
      .error (pgError "23503")
    else
      let comment : Comment :=
        { comment_id := gen.comment_id, body := body, author := author, article_id := n,
          votes := 0, created_at := gen.created_at }
      .ok (comment, { db with comments := db.comments ++ [comment] })

/-- The text the driver sends for a bound number: `NaN` (here `none`) is sent as the text
NaN, a whole number in decimal. -/
def numberText : Option Int → String
  | none => "NaN"
  | some n => toString n

/-- The rejection `articles.model.js` lines 135-138 (and `users.model.js` lines 16-19)
produce. -/
def usernameNotFound : Err :=
  { status := some 404, msg := some "username not found in the database" }

/-- `insertComments`, `articles.model.js` lines 118-140. `article_id` is the number the
handler obtained with `parseInt` (`none` is `NaN`); `username` and `body` are the fields
of the request body, texts or absent. -/
def insertComments (db : DB) (gen : Generated) (article_id : Option Int)
    (username body : Option String) : Mut Comment :=
  match body, username with
  | some body, some username =>
    let userCall : SqlCall := ⟨"SELECT * FROM users WHERE username = $1", [username]⟩
    if (queryUsersByUsername db username).length > 0 then
      let insertCall : SqlCall :=
        ⟨"INSERT INTO comments (body, author, article_id) VALUES ($1, $2, $3) RETURNING *",
          [body, username, numberText article_id]⟩
      match queryInsertComment db gen body username (numberText article_id) with
      | .error e => ⟨.error e, [userCall, insertCall], db⟩
      | .ok (comment, db') => ⟨.ok comment, [userCall, insertCall], db'⟩
    else ⟨.error usernameNotFound, [userCall], db⟩
  | _, _ => ⟨.error badRequest, [], db⟩

/-- The value of a hexadecimal digit. -/
def hexValue (c : Char) : Option Nat :=
  if c.isDigit then some (c.toNat - 48)
  else if 97 ≤ c.toNat ∧ c.toNat ≤ 102 then some (c.toNat - 87)
  else if 65 ≤ c.toNat ∧ c.toNat ≤ 70 then some (c.toNat - 55)
  else none

/-- `parseInt(s)` of JavaScript without a radix: leading white space is skipped, a sign is
read, then the longest run of decimal digits (of hexadecimal digits after `0x` or `0X`);
whatever follows is ignored. Without any digit the result is `NaN`, here `none`. Whole
numbers are unbounded in this model. -/
def parseInt (s : String) : Option Int :=
  let cs := s.data.dropWhile Char.isWhitespace
  let signed : Bool × List Char := match cs with
    | '-' :: r => (true, r)
    | '+' :: r => (false, r)
    | r => (false, r)
  let magnitude : Option Nat := match signed.2 with
    | '0' :: 'x' :: r =>
      let ds := r.takeWhile (fun c => (hexValue c).isSome)
      if ds.isEmpty then none
      else some (ds.foldl (fun n c => 16 * n + (hexValue c).getD 0) 0)
    | '0' :: 'X' :: r =>
      let ds := r.takeWhile (fun c => (hexValue c).isSome)
      if ds.isEmpty then none
      else some (ds.foldl (fun n c => 16 * n + (hexValue c).getD 0) 0)
    | r =>
      let ds := r.takeWhile Char.isDigit
      if ds.isEmpty then none else some (digitsValue ds)
  match magnitude with
  | none => none
  | some m => some (if signed.1 then -(m : Int) else (m : Int))

/-- `postCommentsByArticleId`, `articles.controller.js` lines 63-74: `article_id` is the
path parameter, `username` and `body` the fields of the request body. -/
def postCommentsByArticleId (db : DB) (gen : Generated) (article_id : String)
    (username body : Option String) : Served :=
  let r := insertComments db gen (parseInt article_id) username body
  ⟨respond 201 Body.comment r.outcome, r.db⟩

/-- `getArticleById`, `articles.controller.js` lines 9-18. -/
def getArticleById (db : DB) (article_id : String) : List Response :=
  respond 200 Body.articleWithCount (selectArticleById db article_id).outcome

/-! ## `app.js`: middleware and route table -/

/-- The handlers the route table names. -/
inductive Handler where
  | getAllEndPoints
  | getTopics
  | getArticles
  | getArticleById
  | getUsers
  | getCommentsByArticleId
  | getUserByUsername
  | patchArticleVotesById
  | patchCommentVotes
  | postCommentsByArticleId
  | removeComment
deriving DecidableEq, Repr

/-- A segment of a route path: a fixed word or a named parameter (`:article_id`). -/
inductive Segment where
  | word (w : String)
  | param (name : String)
deriving DecidableEq, Repr

/-- A line `app.METHOD(path, handler)` of the route table. -/
structure Route where
  method : String
  path : List Segment
  handler : Handler
deriving DecidableEq, Repr

/-- The route table, `app.js` lines 26-39, in registration order. -/
def routes : List Route :=
  [ ⟨"GET", [.word "api"], .getAllEndPoints⟩,
    ⟨"GET", [.word "api", .word "topics"], .getTopics⟩,
    ⟨"GET", [.word "api", .word "articles"], .getArticles⟩,
    ⟨"GET", [.word "api", .word "articles", .param "article_id"], .getArticleById⟩,
    ⟨"GET", [.word "api", .word "users"], .getUsers⟩,
    ⟨"GET", [.word "api", .word "articles", .param "article_id", .word "comments"],
      .getCommentsByArticleId⟩,
    ⟨"GET", [.word "api", .word "users", .param "username"], .getUserByUsername⟩,
    ⟨"PATCH", [.word "api", .word "articles", .param "article_id"], .patchArticleVotesById⟩,
    ⟨"PATCH", [.word "api", .word "comments", .param "comment_id"], .patchCommentVotes⟩,
    ⟨"POST", [.word "api", .word "articles", .param "article_id", .word "comments"],
      .postCommentsByArticleId⟩,
    ⟨"DELETE", [.word "api", .word "comments", .param "comment_id"], .removeComment⟩ ]

/-- A request as the middleware and the router see it: the method in upper case, the path
of the URL without the query string, and the status of the error `express.json()` raises
for the body (400 for malformed JSON, for instance), `none` when it accepts the body. -/
structure Request where
  method : String
  path : String
  bodyError : Option Nat := none
deriving DecidableEq, Repr

/-- The pieces of a text between its slashes. -/
def splitSlash : List Char → List (List Char)
  | [] => [[]]
  | c :: cs =>
    if c = '/' then [] :: splitSlash cs
    else match splitSlash cs with
      | seg :: rest => (c :: seg) :: rest
      | [] => [[c]]

/-- The segments of a path that begins with a slash; one trailing slash is not counted
(the router is not strict). A path that does not begin with a slash has none. -/
def pathSegments (path : String) : Option (List String) :=
  match splitSlash path.data with
  | [] :: segs =>
    some ((if segs.getLast? = some [] then segs.dropLast else segs).map String.mk)
  | _ => none

/-- A path segment against a route segment: a word is compared without regard to case (the
router is not case sensitive), a parameter takes any non-empty segment. -/
def segmentMatches : Segment → String → Bool
  | .word w, s => upperAscii w == upperAscii s
  | .param _, s => s != ""

/-- The segments of a path against those of a route, one by one. -/
def segmentsMatch : List Segment → List String → Bool
  | [], [] => true
  | p :: ps, s :: ss => segmentMatches p s && segmentsMatch ps ss
  | _, _ => false

/-- A route matches a request when the methods agree (a `get` route also handles HEAD) and
the path matches. -/
def routeMatches (r : Route) (req : Request) : Bool :=
  (r.method == req.method || (r.method == "GET" && req.method == "HEAD"))
    && match pathSegments req.path with
      | some segs => segmentsMatch r.path segs
      | none => false

/-- The path of a route matches the path of a request, whatever the method. -/
def pathMatches (r : Route) (req : Request) : Bool :=
  match pathSegments req.path with
  | some segs => segmentsMatch r.path segs
  | none => false

/-- The methods agree: a route handles its own method, and a `get` route also HEAD. -/
def methodHandled (r : Route) (req : Request) : Bool :=
  r.method == req.method || (r.method == "GET" && req.method == "HEAD")

/-- The segments of the path that the parameters of a route capture. -/
def captured : List Segment → List String → List String
  | .param _ :: ps, s :: ss => s :: captured ps ss
  | .word _ :: ps, _ :: ss => captured ps ss
  | _, _ => []

/-- The value of an escape `%XY`. -/
def hexPair (a b : Char) : Option Nat :=
  match hexValue a, hexValue b with
  | some x, some y => some (16 * x + y)
  | _, _ => none

/-- Reads `k` escapes that are continuation octets (128 to 191) of a UTF-8 sequence and
adds their six bits each to the value read so far. -/
def continuation : Nat → Nat → List Char → Option (Nat × List Char)
  | 0, acc, cs => some (acc, cs)
  | k + 1, acc, '%' :: a :: b :: rest =>
    match hexPair a b with
    | some o => if 128 ≤ o ∧ o < 192 then continuation k (acc * 64 + (o - 128)) rest else none
    | none => none
  | _ + 1, _, _ => none

/-- `decodeURIComponent` does not throw: every `%` is followed by two hexadecimal digits,
and the octets from 128 on form UTF-8 sequences of two to four octets that encode a code
point in the shortest form, outside the surrogates and up to 1114111. The first argument
bounds the number of steps. -/
def decodesAux : Nat → List Char → Bool
  | 0, _ => true
  | _ + 1, [] => true
  | fuel + 1, '%' :: a :: b :: rest =>
    match hexPair a b with
    | none => false
    | some o =>
      if o < 128 then decodesAux fuel rest
      else if 192 ≤ o ∧ o < 224 then
        match continuation 1 (o - 192) rest with
        | some (v, rest') => decide (128 ≤ v) && decodesAux fuel rest'
        | none => false
      else if 224 ≤ o ∧ o < 240 then
        match continuation 2 (o - 224) rest with
        | some (v, rest') =>
          decide (2048 ≤ v ∧ ¬ (55296 ≤ v ∧ v ≤ 57343)) && decodesAux fuel rest'
        | none => false
      else if 240 ≤ o ∧ o < 248 then
        match continuation 3 (o - 240) rest with
        | some (v, rest') => decide (65536 ≤ v ∧ v ≤ 1114111) && decodesAux fuel rest'
        | none => false
      else false
  | _ + 1, '%' :: _ => false
  | fuel + 1, _ :: cs => decodesAux fuel cs

/-- `decodeURIComponent(s)` does not throw. -/
def decodes (s : String) : Bool :=
  decodesAux (s.data.length + 1) s.data

/-- The error the router raises when a captured part of the path does not decode: a
`URIError` to which it gives the status 400; it has no `code` and no `msg`. -/
def uriError : Err :=
  { status := some 400 }

/-- Every segment of the path, and the path after its first slash, decode. -/
def pathDecodes (path : String) : Bool :=
  decodes ⟨path.data.tail⟩
    && match pathSegments path with
      | some segs => segs.all decodes
      | none => true

/-- What becomes of a request in `app.js`: answered by the `cors()` middleware, handed to
the error pipeline with an error, given to the handler of the first matching route, caught
by `app.all("/*")`, or left to the final handler of Express. -/
inductive Handled where
  | preflight
  | failed (err : Err)
  | routed (handler : Handler)
  | unrouted
  | unhandled
deriving DecidableEq, Repr

/-- The loop of the router over the routes and then over `app.all("/*")` (line 43).
A layer whose path matches has the parts it captures decoded; when one does not decode the
error is kept (`pending`), no later route is entered and the error ends in the error
pipeline. Otherwise the first route whose path and method match gets the request. The
catch-all takes every path that begins with a slash and captures all that follows it. -/
def walkRoutes (req : Request) : List Route → Bool → Handled
  | [], pending =>
    if pending then .failed uriError
    else if req.path.data.head? = some '/' then
      if decodes ⟨req.path.data.tail⟩ then .unrouted else .failed uriError
    else .unhandled
  | r :: rs, pending =>
    if pathMatches r req then
      if !(captured r.path ((pathSegments req.path).getD [])).all decodes then
        walkRoutes req rs true
      else if !pending && methodHandled r req then .routed r.handler
      else walkRoutes req rs pending
    else walkRoutes req rs pending

/-- The middleware stack of `app.js` in registration order: `cors()` (lines 4 and 23)
answers every OPTIONS request itself; `express.json()` (line 24) passes the error of a
body it refuses to `next`, which skips to the error middleware; then the router walks the
routes and the catch-all. -/
def dispatch (req : Request) : Handled :=
  if req.method = "OPTIONS" then .preflight
  else match req.bodyError with
    | some s => .failed { status := some s }
    | none => walkRoutes req routes false

/-- The responses sent for a request; what each handler answers and what the final handler
of Express answers are parameters. `cors()` ends a preflight with status 204 and no body;
the catch-all answers as `app.js` line 44 says. -/
def answer (handlers : Handler → List Response) (final : List Response) (req : Request) :
    List Response :=
  match dispatch req with
  | .preflight => [⟨204, .empty⟩]
  | .failed err => errorPipeline err
  | .routed h => handlers h
  | .unrouted => [⟨404, .msg (some "Route not found")⟩]
  | .unhandled => final

/-! ## Pagination -/

/-- The comments of article `n`, newest first, as `selectCommentsByArticleId` selects them
before LIMIT and OFFSET. -/
def orderedComments (db : DB) (n : Int) : List CommentRow :=
  ((db.comments.filter (fun c => decide (c.article_id = n))).insertionSort
    (fun a b => b.created_at ≤ a.created_at)).map commentRow

/-- The slice of a list of rows that starts at row index `p` and has at most `limit`
rows. -/
def slice {α : Type} (limit p : Nat) (rows : List α) : List α :=
  (rows.drop p).take limit

/-! ## An order that is not a text -/

/-- A value of `request.query`: a text, or an array or object, which the query parser of
Express yields for a repeated parameter (`?order=asc&order=desc`) or one written with
brackets (`?order[k]=asc`). -/
inductive QueryValue where
  | text (s : String)
  | nested
deriving DecidableEq, Repr

/-- The exception JavaScript raises when a method is called that the value does not have:
a `TypeError`, with neither `code`, `status` nor `msg`. -/
def typeError : Err := {}

/-- What a call of a data-access function does: it throws before it returns, or it returns
its promise. -/
inductive Called (α : Type) where
  | threw (err : Err)
  | returned (run : Run α)

/-- `selectArticles`, `articles.model.js` lines 43-93, with an order of any kind: line 50,
`sortQuery.toUpperCase()`, throws when the order is an array or an object; on a text or an
absent order the function goes on as `selectArticles` does. -/
def selectArticlesAny (db : DB) (topicFilter : Option String) (sortQuery : Option QueryValue)
    (orderQuery limit p : Option String) : Called (List ArticleRow) :=
  match sortQuery with
  | some .nested => .threw typeError
  | some (.text s) => .returned (selectArticles db topicFilter (some s) orderQuery limit p)
  | none => .returned (selectArticles db topicFilter none orderQuery limit p)

/-- `getArticles`, `articles.controller.js` lines 33-47, with an order of any kind: an
exception that leaves the handler is caught by Express and handed to the error pipeline. -/
def getArticlesAny (db : DB) (topic : Option String) (order : Option QueryValue)
    (sort_by limit p : Option String) : List Response :=
  match selectArticlesAny db topic order sort_by limit p with
  | .threw err => errorPipeline err
  | .returned run => respond 200 Body.articles run.outcome

/-! ## Theorems -/

/-- Outside the HTTP status codes the fourth classifier does not answer: a status `0` is
falsy, and with the status 99 the `send` throws; the last middleware answers 500. -/
theorem errorPipeline_no_status_code :
    errorPipeline { status := some 0, msg := some "x" }
        = [⟨500, .msg (some "Something went wrong!")⟩]
      ∧ errorPipeline { status := some 99, msg := some "x" }
        = [⟨500, .msg (some "Something went wrong!")⟩] := by
  decide

/-- C1: every error object gets exactly one response, and for every error whose status is
absent or an HTTP error status (as for every error this application hands to the pipeline)
it is the response of the first matching classifier: code 22P02 gives 400, code 23503 gives
404, code 42703 gives 400, a status gives that status with the msg of the error, anything
else gives 500. -/
theorem errorPipeline_first_match (err : Err) :
    (errorPipeline err).length = 1
      ∧ (err.wellFormed → errorPipeline err =
        [ if err.code = some "22P02" then ⟨400, .msg (some "You have made a bad request")⟩
          else if err.code = some "23503" then
            ⟨404, .msg (some "Value not found in the database")⟩
          else if err.code = some "42703" then
            ⟨400, .msg (some "You have made a bad request")⟩
          else match err.status with
            | some s => ⟨s, .msg err.msg⟩
            | none => ⟨500, .msg (some "Something went wrong!")⟩ ]) := by
  unfold errorPipeline errorHandlers
  simp only [runHandlers, handle22P02, handle23503, handle42703, handleStatus, handle500]
  by_cases h1 : err.code = some "22P02"
  · simp [h1]
  by_cases h2 : err.code = some "23503"
  · simp [h2]
  by_cases h3 : err.code = some "42703"
  · simp [h3]
  simp only [h1, h2, h3, if_false]
  rcases hs : err.status with _ | s
  · simp [truthyNat]
  · by_cases hr : 100 ≤ s ∧ s ≤ 999
    · have h0 : s ≠ 0 := by omega
      simp [truthyNat, h0, hr]
    · constructor
      · by_cases h0 : s = 0
        · simp [truthyNat, h0]
        · simp [truthyNat, h0, hr, invalidStatusCode]
      · intro hw
        have := hw s hs
        exact absurd (show 100 ≤ s ∧ s ≤ 999 by omega) hr

theorem errorPipeline_first_match_witness :
    (errorPipeline { status := some 404, msg := some "article_id not found in the database" }
          ).length = 1
      ∧ errorPipeline { status := some 404, msg := some "article_id not found in the database" }
        = [⟨404, .msg (some "article_id not found in the database")⟩]
      ∧ errorPipeline { code := some "22P02", status := some 404 }
        = [⟨400, .msg (some "You have made a bad request")⟩] :=
  ⟨(errorPipeline_first_match
      { status := some 404, msg := some "article_id not found in the database" }).1,
    (errorPipeline_first_match
      { status := some 404, msg := some "article_id not found in the database" }).2
      (by intro s hs; cases hs; decide),
    (errorPipeline_first_match { code := some "22P02", status := some 404 }).2
      (by intro s hs; cases hs; decide)⟩

/-! ### Letters and case -/

theorem toUpper_eq_iff (c u : Char) (hu : 65 ≤ u.toNat ∧ u.toNat ≤ 90) :
    c.toUpper = u ↔ c = u.toLower ∨ c = u := by
  obtain ⟨n, hn, rfl⟩ : ∃ n, n = u.toNat ∧ u = Char.ofNat n :=
    ⟨_, rfl, (Char.ofNat_toNat u).symm⟩
  obtain ⟨h1, h2⟩ := hu
  rw [← hn] at h1 h2
  clear hn
  by_cases h : 97 ≤ c.toNat ∧ c.toNat ≤ 122
  · obtain ⟨m, hm, rfl⟩ : ∃ m, m = c.toNat ∧ c = Char.ofNat m :=
      ⟨_, rfl, (Char.ofNat_toNat c).symm⟩
    rw [← hm] at h
    clear hm
    obtain ⟨h3, h4⟩ := h
    interval_cases n <;> interval_cases m <;> decide
  · have hc : c.toUpper = c := by
      unfold Char.toUpper
      simp only [ge_iff_le]
      rw [if_neg h]
    rw [hc]
    constructor
    · exact Or.inr
    · rintro (h' | h')
      · exfalso
        apply h
        rw [h']
        interval_cases n <;> decide
      · exact h'

theorem toLower_eq_iff (c l : Char) (hl : 97 ≤ l.toNat ∧ l.toNat ≤ 122) :
    c.toLower = l ↔ c = l ∨ c = l.toUpper := by
  obtain ⟨n, hn, rfl⟩ : ∃ n, n = l.toNat ∧ l = Char.ofNat n :=
    ⟨_, rfl, (Char.ofNat_toNat l).symm⟩
  obtain ⟨h1, h2⟩ := hl
  rw [← hn] at h1 h2
  clear hn
  by_cases h : 65 ≤ c.toNat ∧ c.toNat ≤ 90
  · obtain ⟨m, hm, rfl⟩ : ∃ m, m = c.toNat ∧ c = Char.ofNat m :=
      ⟨_, rfl, (Char.ofNat_toNat c).symm⟩
    rw [← hm] at h
    clear hm
    obtain ⟨h3, h4⟩ := h
    interval_cases n <;> interval_cases m <;> decide
  · have hc : c.toLower = c := by
      unfold Char.toLower
      simp only [ge_iff_le]
      rw [if_neg h]
    rw [hc]
    constructor
    · exact Or.inl
    · rintro (h' | h')
      · exact h'
      · exfalso
        apply h
        rw [h']
        interval_cases n <;> decide

theorem specialOf_mem (k : Nat) (t : List (Nat × List Char)) (l : List Char)
    (h : specialOf k t = some l) : (k, l) ∈ t := by
  induction t with
  | nil => cases h
  | cons e rest ih =>
    obtain ⟨k', l'⟩ := e
    unfold specialOf at h
    by_cases hk : k = k'
    · rw [if_pos hk] at h
      cases h
      rw [hk]
      exact List.mem_cons_self _ _
    · rw [if_neg hk] at h
      exact List.mem_cons_of_mem _ (ih h)

theorem specialUpper_facts : ∀ e ∈ specialUpper,
    e.2 ≠ [] ∧ ∀ u ∈ orderLetters, e.2.head? = some u →
      (e.2.tail = [] ∧ e.1 = 383 ∧ u = 'S') ∨ (u = 'A' ∧ e.2.tail = [Char.ofNat 702])
        ∨ (u = 'S' ∧ (e.2.tail = ['S'] ∨ e.2.tail = ['T'])) := by
  decide

theorem upperOf_ne_nil (c : Char) : upperOf c ≠ [] := by
  unfold upperOf
  cases h : specialOf c.toNat specialUpper with
  | none => exact List.cons_ne_nil _ _
  | some l => exact (specialUpper_facts _ (specialOf_mem _ _ _ h)).1

theorem orderLetters_cases (u : Char) (hu : u ∈ orderLetters) :
    u = 'A' ∨ u = 'S' ∨ u = 'C' ∨ u = 'D' ∨ u = 'E' := by
  unfold orderLetters at hu
  simpa only [List.mem_cons, List.mem_singleton, List.not_mem_nil, or_false] using hu

theorem upperOf_cons (c u : Char) (l : List Char) (hu : u ∈ orderLetters)
    (h : upperOf c = u :: l) :
    (l = [] ∧ caseFold c = u.toLower) ∨ (u = 'A' ∧ l = [Char.ofNat 702])
      ∨ (u = 'S' ∧ (l = ['S'] ∨ l = ['T'])) := by
  unfold upperOf at h
  cases hsp : specialOf c.toNat specialUpper with
  | some l' =>
    rw [hsp] at h
    simp only at h
    have hf := (specialUpper_facts _ (specialOf_mem _ _ _ hsp)).2 u hu
    simp only [h, List.head?_cons, List.tail_cons, true_implies] at hf
    rcases hf with ⟨h1, h2, h3⟩ | h2 | h2
    · left
      refine ⟨h1, ?_⟩
      unfold caseFold
      rw [if_pos h2, h3]
      decide
    · exact Or.inr (Or.inl h2)
    · exact Or.inr (Or.inr h2)
  | none =>
    rw [hsp] at h
    simp only [List.cons.injEq] at h
    obtain ⟨hcu, hl⟩ := h
    left
    refine ⟨hl.symm, ?_⟩
    have hrange : 65 ≤ u.toNat ∧ u.toNat ≤ 90 := by
      rcases orderLetters_cases u hu with rfl | rfl | rfl | rfl | rfl <;> decide
    rcases (toUpper_eq_iff c u hrange).1 hcu with hc | hc
    · rw [hc]
      rcases orderLetters_cases u hu with rfl | rfl | rfl | rfl | rfl <;> decide
    · rw [hc]
      rcases orderLetters_cases u hu with rfl | rfl | rfl | rfl | rfl <;> decide

theorem upperOf_of_caseFold (c x : Char) (hx : x.toUpper ∈ orderLetters)
    (hxl : 97 ≤ x.toNat ∧ x.toNat ≤ 122) (h : caseFold c = x) :
    upperOf c = [x.toUpper] := by
  unfold caseFold at h
  by_cases h1 : c.toNat = 383
  · rw [if_pos h1] at h
    subst h
    unfold upperOf
    rw [h1]
    rfl
  · rw [if_neg h1] at h
    by_cases h2 : c.toNat = 8490
    · rw [if_pos h2] at h
      subst h
      exact absurd hx (by decide)
    · rw [if_neg h2] at h
      have hcases : x = 'a' ∨ x = 's' ∨ x = 'c' ∨ x = 'd' ∨ x = 'e' := by
        obtain ⟨m, hm, rfl⟩ : ∃ m, m = x.toNat ∧ x = Char.ofNat m :=
          ⟨_, rfl, (Char.ofNat_toNat x).symm⟩
        rw [← hm] at hxl
        obtain ⟨h3, h4⟩ := hxl
        clear hm h
        interval_cases m <;> revert hx <;> decide
      rcases (toLower_eq_iff c x hxl).1 h with hc | hc
      · rw [hc]
        rcases hcases with rfl | rfl | rfl | rfl | rfl <;> decide
      · rw [hc]
        rcases hcases with rfl | rfl | rfl | rfl | rfl <;> decide

theorem flatMap_upperOf_eq_iff (w : List Char)
    (hw : ∀ x ∈ w, x.toUpper ∈ orderLetters ∧ 97 ≤ x.toNat ∧ x.toNat ≤ 122)
    (hss : List.Chain' (fun a b => ¬ (a = 's' ∧ b = 's')) w) :
    ∀ cs : List Char, cs.flatMap upperOf = w.map Char.toUpper ↔ sameWord cs w := by
  unfold sameWord
  induction w with
  | nil =>
    intro cs
    cases cs with
    | nil => simp
    | cons c cs =>
      simp only [List.flatMap_cons, List.map_nil, List.append_eq_nil, List.map_cons]
      constructor
      · intro h
        exact absurd h.1 (upperOf_ne_nil c)
      · intro h
        cases h
  | cons x w ih =>
    intro cs
    have hx := hw x (List.mem_cons_self _ _)
    have ih' := ih (fun y hy => hw y (List.mem_cons_of_mem _ hy)) (List.Chain'.tail hss)
    have hlow : x.toUpper.toLower = x := by
      obtain ⟨m, hm, rfl⟩ : ∃ m, m = x.toNat ∧ x = Char.ofNat m :=
        ⟨_, rfl, (Char.ofNat_toNat x).symm⟩
      obtain ⟨_, h3, h4⟩ := hx
      rw [← hm] at h3 h4
      clear hm
      interval_cases m <;> decide
    cases cs with
    | nil => simp
    | cons c cs =>
      simp only [List.flatMap_cons, List.map_cons, List.cons.injEq]
      constructor
      · intro h
        cases hup : upperOf c with
        | nil => exact absurd hup (upperOf_ne_nil c)
        | cons u l =>
          rw [hup] at h
          simp only [List.cons_append, List.cons.injEq] at h
          obtain ⟨hu, hrest⟩ := h
          subst hu
          rcases upperOf_cons c _ l hx.1 hup with ⟨hl, hfold⟩ | ⟨hA, hl⟩ | ⟨hS, hl⟩
          · subst hl
            exact ⟨hfold.trans hlow, (ih' cs).1 hrest⟩
          · exfalso
            subst hl
            cases w with
            | nil => simp at hrest
            | cons y w =>
              simp only [List.singleton_append, List.map_cons, List.cons.injEq] at hrest
              have hy := (hw y (by simp)).1
              rw [← hrest.1] at hy
              exact absurd hy (by decide)
          · exfalso
            cases w with
            | nil => rcases hl with hl | hl <;> subst hl <;> simp at hrest
            | cons y w =>
              have hy := hw y (by simp)
              have hxs : x = 's' := by
                rw [← hlow, hS]
                decide
              rcases hl with hl | hl
              · subst hl
                simp only [List.singleton_append, List.map_cons, List.cons.injEq] at hrest
                have hys : y = 's' := by
                  have h1 := (toUpper_eq_iff y 'S' (by decide)).1 hrest.1.symm
                  rcases h1 with h1 | h1
                  · rw [h1]; decide
                  · rw [h1] at hy
                    exact absurd hy.2.1 (by decide)
                exact (List.chain'_cons.1 hss).1 ⟨hxs, hys⟩
              · subst hl
                simp only [List.singleton_append, List.map_cons, List.cons.injEq] at hrest
                have hyu := hy.1
                rw [← hrest.1] at hyu
                exact absurd hyu (by decide)
      · rintro ⟨hc, hcs⟩
        rw [upperOf_of_caseFold c x hx.1 hx.2 hc, (ih' cs).2 hcs]
        rfl

theorem orderAccepted_iff (s : String) :
    ["ASC", "DESC"].contains (toUpperCase s) = true ↔ isAscOrDesc s := by
  have c1 : List.Chain' (fun a b => ¬ (a = 's' ∧ b = 's')) "asc".data := by
    show List.Chain' _ ['a', 's', 'c']
    exact List.Chain'.cons (by decide) (List.Chain'.cons (by decide) (List.chain'_singleton _))
  have c2 : List.Chain' (fun a b => ¬ (a = 's' ∧ b = 's')) "desc".data := by
    show List.Chain' _ ['d', 'e', 's', 'c']
    exact List.Chain'.cons (by decide) (List.Chain'.cons (by decide)
      (List.Chain'.cons (by decide) (List.chain'_singleton _)))
  have h1 := flatMap_upperOf_eq_iff "asc".data (by decide) c1 s.data
  have h2 := flatMap_upperOf_eq_iff "desc".data (by decide) c2 s.data
  unfold isAscOrDesc
  rw [← h1, ← h2]
  have e1 : toUpperCase s = "ASC"
      ↔ s.data.flatMap upperOf = "asc".data.map Char.toUpper := by
    unfold toUpperCase
    constructor
    · intro h
      exact congrArg String.data h
    · intro h
      rw [h]
      rfl
  have e2 : toUpperCase s = "DESC"
      ↔ s.data.flatMap upperOf = "desc".data.map Char.toUpper := by
    unfold toUpperCase
    constructor
    · intro h
      exact congrArg String.data h
    · intro h
      rw [h]
      rfl
  rw [← e1, ← e2]
  simp [List.contains_iff_exists_mem_beq]

/-! ### What the database raises -/

theorem pgOperand_error (text : String) (e : Err)
    (h : pgOperand text = .error e) : e.status = none := by
  unfold pgOperand at h
  split at h
  · cases h; rfl
  · split at h
    · cases h
    · cases h; rfl
  · split at h
    · cases h
    · cases h; rfl

theorem pgWindow_error (limit p : String) (e : Err)
    (h : pgWindow limit p = .error e) : e.status = none := by
  unfold pgWindow at h
  split at h
  · rename_i e1 h1
    cases h
    exact pgOperand_error _ _ h1
  · split at h
    · rename_i e2 h2
      cases h
      exact pgOperand_error _ _ h2
    · cases h

theorem pgSlice_error {α : Type} (l o : Int) (rows : List α) (e : Err)
    (h : pgSlice l o rows = .error e) : e.status = none := by
  unfold pgSlice at h
  split at h
  · cases h; rfl
  · split at h
    · cases h; rfl
    · cases h

theorem queryArticles_error (db : DB) (topic : Option String) (field dir limit p : String)
    (e : Err) (h : queryArticles db topic field dir limit p = .error e) :
    e.status = none := by
  unfold queryArticles at h
  split at h
  · rename_i e1 h1
    cases h
    exact pgWindow_error _ _ _ h1
  · exact pgSlice_error _ _ _ _ h

/-! ### Validation of the listing parameters -/

theorem valid_iff (order sortBy : Option String) :
    (["ASC", "DESC"].contains (toUpperCase (order.getD "desc"))
        && sortFields.contains (sortBy.getD "created_at")) = true
      ↔ (isAscOrDesc (order.getD "desc") ∧ sortBy.getD "created_at" ∈ sortFields) := by
  rw [Bool.and_eq_true, orderAccepted_iff, List.contains_iff_exists_mem_beq]
  simp

theorem selectArticles_of_invalid (db : DB) (topicFilter order sortBy limit p : Option String)
    (hv : ¬ ((["ASC", "DESC"].contains (toUpperCase (order.getD "desc"))
        && sortFields.contains (sortBy.getD "created_at")) = true)) :
    (selectArticles db topicFilter order sortBy limit p).outcome = .error badRequest
      ∧ (selectArticles db topicFilter order sortBy limit p).calls = [] := by
  unfold selectArticles
  simp only []
  rw [if_neg hv]
  exact ⟨rfl, rfl⟩

theorem selectArticles_of_valid (db : DB) (topicFilter order sortBy limit p : Option String)
    (hv : (["ASC", "DESC"].contains (toUpperCase (order.getD "desc"))
        && sortFields.contains (sortBy.getD "created_at")) = true) :
    (selectArticles db topicFilter order sortBy limit p).outcome ≠ .error badRequest
      ∧ (selectArticles db topicFilter order sortBy limit p).calls ≠ [] := by
  unfold selectArticles
  simp only []
  rw [if_pos hv]
  split
  · rename_i e he
    refine ⟨?_, by simp⟩
    intro h
    have hs := queryArticles_error _ _ _ _ _ _ _ he
    simp only [Except.error.injEq] at h
    rw [h] at hs
    simp [badRequest] at hs
  · split
    · refine ⟨?_, by simp⟩
      simp [topicNotFound, badRequest]
    · refine ⟨?_, by simp⟩
      simp

/-- For an order that is a text or omitted, `selectArticles` rejects with status 400 "You
have made a bad request" exactly when
the order (default `desc`), compared without regard to case, is not asc or desc, or the
sort field (default `created_at`) is not in the allow-list; it rejects this way exactly
when it issues no query; an omitted order and sort field are read as `desc` and
`created_at`, which are accepted. -/
theorem selectArticles_badRequest_iff (db : DB)
    (topicFilter order sortBy limit p : Option String) :
    ((selectArticles db topicFilter order sortBy limit p).outcome = .error badRequest
        ↔ ¬ (isAscOrDesc (order.getD "desc") ∧ sortBy.getD "created_at" ∈ sortFields))
      ∧ ((selectArticles db topicFilter order sortBy limit p).outcome = .error badRequest
        ↔ (selectArticles db topicFilter order sortBy limit p).calls = [])
      ∧ (selectArticles db topicFilter none none limit p).outcome
          = (selectArticles db topicFilter (some "desc") (some "created_at") limit p).outcome
      ∧ (selectArticles db topicFilter none none limit p).outcome ≠ .error badRequest := by
  have hdef : (["ASC", "DESC"].contains (toUpperCase ((none : Option String).getD "desc"))
        && sortFields.contains ((none : Option String).getD "created_at")) = true := by
    decide
  refine ⟨?_, ?_, rfl, (selectArticles_of_valid db topicFilter none none limit p hdef).1⟩
  · rw [← valid_iff]
    constructor
    · intro h hv
      exact (selectArticles_of_valid db topicFilter order sortBy limit p hv).1 h
    · intro hv
      exact (selectArticles_of_invalid db topicFilter order sortBy limit p hv).1
  · by_cases hv : (["ASC", "DESC"].contains (toUpperCase (order.getD "desc"))
        && sortFields.contains (sortBy.getD "created_at")) = true
    · have h := selectArticles_of_valid db topicFilter order sortBy limit p hv
      exact ⟨fun h1 => absurd h1 h.1, fun h2 => absurd h2 h.2⟩
    · have h := selectArticles_of_invalid db topicFilter order sortBy limit p hv
      exact ⟨fun _ => h.2, fun _ => h.1⟩

/-- C2 (failing input): an order given twice (`?order=asc&order=desc`) reaches
`selectArticles` as an array, which is not one of asc and desc; line 50 throws a TypeError
instead of rejecting with status 400, and the handler answers 500, whatever the other
parameters are. A text order is handled as `selectArticles` handles it. -/
theorem repeated_order_answers_500 (db : DB) (topic sort_by limit p : Option String) :
    (match selectArticlesAny db topic (some .nested) sort_by limit p with
      | .threw err => err = typeError
      | .returned _ => False)
      ∧ getArticlesAny db topic (some .nested) sort_by limit p
          = [⟨500, .msg (some "Something went wrong!")⟩]
      ∧ (∀ s : String, getArticlesAny db topic (some (.text s)) sort_by limit p
          = getArticles db topic (some s) sort_by limit p)
      ∧ getArticlesAny db topic none sort_by limit p
          = getArticles db topic none sort_by limit p := by
  refine ⟨rfl, ?_, fun _ => rfl, rfl⟩
  show errorPipeline typeError = _
  decide

/-- The order `desc` written with a long s (code point 383) is upper-cased to `DESC` as
in the source: it passes validation and the listing is queried. -/
theorem long_s_order_is_accepted :
    toUpperCase ⟨['d', 'e', Char.ofNat 383, 'c']⟩ = "DESC"
      ∧ ((selectArticles sampleDb none (some ⟨['d', 'e', Char.ofNat 383, 'c']⟩) none none
          none).outcome.toOption.map (fun rows => rows.map (·.article_id))) = some [5, 1, 11] := by
  decide

/-! ### Digits -/

theorem digit_not_blank (c : Char) (h : c.isDigit = true) : c.isWhitespace = false := by
  obtain ⟨m, hm, rfl⟩ : ∃ m, m = c.toNat ∧ c = Char.ofNat m :=
    ⟨_, rfl, (Char.ofNat_toNat c).symm⟩
  have h' : 48 ≤ m ∧ m ≤ 57 := by
    unfold Char.isDigit at h
    simp only [Bool.and_eq_true, decide_eq_true_eq] at h
    rw [hm]
    exact ⟨h.1, h.2⟩
  obtain ⟨h1, h2⟩ := h'
  clear hm h
  interval_cases m <;> decide

theorem dropWhile_blank_digits (cs : List Char) (h : cs.all Char.isDigit = true) :
    cs.dropWhile Char.isWhitespace = cs := by
  cases cs with
  | nil => rfl
  | cons c cs =>
    have hc : c.isDigit = true := by
      simp only [List.all_cons, Bool.and_eq_true] at h
      exact h.1
    simp [List.dropWhile, digit_not_blank c hc]

theorem trimBlanks_digits (cs : List Char) (h : isDigits cs = true) : trimBlanks cs = cs := by
  unfold isDigits at h
  simp only [Bool.and_eq_true] at h
  unfold trimBlanks
  rw [dropWhile_blank_digits cs h.2, dropWhile_blank_digits cs.reverse (by simpa using h.2),
    List.reverse_reverse]

theorem pgOperand_digits (s : String) (h : isDigits s.data = true) :
    pgOperand s = .ok (digitsValue s.data : Int) := by
  unfold pgOperand
  rw [trimBlanks_digits _ h]
  split
  · rename_i h0
    rw [h0] at h
    simp [isDigits] at h
  · rename_i ds h0
    rw [h0] at h
    simp [isDigits] at h
  · rw [if_pos h]

theorem pgWindow_digits (limit p : Option String)
    (hl : absentOrDigits limit = true) (hp : absentOrDigits p = true) :
    pgWindow (limit.getD "10") (p.getD "0")
      = .ok ((digitsValue (limit.getD "10").data : Int), (digitsValue (p.getD "0").data : Int)) := by
  have h1 : isDigits (limit.getD "10").data = true := by
    cases limit with
    | none => decide
    | some s => exact hl
  have h2 : isDigits (p.getD "0").data = true := by
    cases p with
    | none => decide
    | some s => exact hp
  unfold pgWindow
  rw [pgOperand_digits _ h1, pgOperand_digits _ h2]

theorem pgSlice_nat {α : Type} (l o : Nat) (rows : List α) :
    pgSlice (l : Int) (o : Int) rows = .ok ((rows.drop o).take l) := by
  unfold pgSlice
  rw [if_neg (by omega), if_neg (by omega)]
  simp

/-! ### The listing with accepted parameters -/

/-- With accepted parameters the listing is the window of the ordered rows, unless the
window is empty and the topic filter is not among the slugs. -/
theorem selectArticles_outcome (db : DB) (topicFilter order sortBy limit p : Option String)
    (hv : isAscOrDesc (order.getD "desc") ∧ sortBy.getD "created_at" ∈ sortFields)
    (hl : absentOrDigits limit = true) (hp : absentOrDigits p = true)
    (rows : List ArticleRow)
    (hrows : rows = ((orderedRows db (if truthyStr topicFilter then topicFilter else none)
      (sortBy.getD "created_at") (toUpperCase (order.getD "desc"))).drop
        (digitsValue (p.getD "0").data)).take (digitsValue (limit.getD "10").data)) :
    (selectArticles db topicFilter order sortBy limit p).outcome =
      if (decide (rows.length = 0) && !includes (db.topics.map (·.slug)) topicFilter) = true
      then .error topicNotFound else .ok rows := by
  have hv' := (valid_iff order sortBy).2 hv
  unfold selectArticles
  simp only []
  rw [if_pos hv']
  unfold queryArticles
  rw [pgWindow_digits limit p hl hp]
  simp only [pgSlice_nat]
  rw [← hrows, apply_ite Run.outcome]

theorem keptArticles_nil_of_no_topic (db : DB) (t : String)
    (h : ∀ a ∈ db.articles, a.topic ≠ t) : keptArticles db (some t) = [] := by
  unfold keptArticles
  rw [List.filter_eq_nil_iff]
  intro a ha
  simpa using h a ha

theorem truthyStr_some (t : String) (ht : t ≠ "") : truthyStr (some t) = true := by
  simpa [truthyStr] using ht

/-- C3 (failing input): a `limit` or `p` that is present but empty (`?limit=`) is not a
bad request: the statement does not prepare (SQLSTATE 42601), no classifier matches and
both listings answer 500. An absent `limit` or `p` is read as `10` or `0`. -/
theorem blank_limit_answers_500 (db : DB) (article_id : String)
    (topic order sortBy : Option String) :
    getArticles db none none none (some "") none
        = [⟨500, .msg (some "Something went wrong!")⟩]
      ∧ getArticles db none none none none (some "")
        = [⟨500, .msg (some "Something went wrong!")⟩]
      ∧ getCommentsByArticleId db article_id (some "") none
        = [⟨500, .msg (some "Something went wrong!")⟩]
      ∧ getCommentsByArticleId db article_id none (some "")
        = [⟨500, .msg (some "Something went wrong!")⟩]
      ∧ getArticles db topic order sortBy none none
        = getArticles db topic order sortBy (some "10") (some "0")
      ∧ getCommentsByArticleId db article_id none none
        = getCommentsByArticleId db article_id (some "10") (some "0") := by
  have hv : (["ASC", "DESC"].contains (toUpperCase ((none : Option String).getD "desc"))
      && sortFields.contains ((none : Option String).getD "created_at")) = true := by decide
  have h1 : pgWindow "" "0" = .error (pgError "42601") := rfl
  have h2 : pgWindow "10" "" = .error (pgError "42601") := rfl
  have h3 : errorPipeline (pgError "42601") = [⟨500, .msg (some "Something went wrong!")⟩] := by
    decide
  refine ⟨?_, ?_, ?_, ?_, rfl, rfl⟩
  · unfold getArticles selectArticles
    simp only []
    rw [if_pos hv]
    simp only [Option.getD_some, Option.getD_none, queryArticles, h1, respond, h3]
  · unfold getArticles selectArticles
    simp only []
    rw [if_pos hv]
    simp only [Option.getD_some, Option.getD_none, queryArticles, h2, respond, h3]
  · simp only [getCommentsByArticleId, selectCommentsByArticleId, Option.getD_some,
      Option.getD_none, queryComments, h1, respond, h3]
  · simp only [getCommentsByArticleId, selectCommentsByArticleId, Option.getD_some,
      Option.getD_none, queryComments, h2, respond, h3]

/-- C4 (as stated, refuted): in the sample database every article has a known topic and
neither the empty text nor `hannah` is a slug; yet the supplied empty topic resolves to
all three articles, and the unknown topic `hannah` with `limit=not-valid` is rejected by
the database (code 42703), not with the 404 of the topic. -/
theorem unknown_topic_not_always_404 :
    sampleDb.topicsKnown
      ∧ "" ∉ sampleDb.topics.map (·.slug) ∧ "hannah" ∉ sampleDb.topics.map (·.slug)
      ∧ ((selectArticles sampleDb (some "") none none none none).outcome.toOption.map
          (fun rows => rows.map (·.article_id))) = some [5, 1, 11]
      ∧ (selectArticles sampleDb (some "hannah") none none (some "not-valid") none).outcome
          = .error (pgError "42703") := by
  refine ⟨?_, by decide, by decide, by decide, rfl⟩
  unfold DB.topicsKnown
  decide

/-- C4 (amended): when every article has a known topic, a supplied non-empty topic filter
that is no slug of the topics table, with accepted order and sort field and with `limit`
and `p` absent or runs of digits, is rejected with 404 "You have made a bad request - this
topic does not exist". -/
theorem selectArticles_unknown_topic (db : DB) (t : String)
    (order sortBy limit p : Option String)
    (hfk : db.topicsKnown) (ht : t ≠ "") (hslug : t ∉ db.topics.map (·.slug))
    (hv : isAscOrDesc (order.getD "desc") ∧ sortBy.getD "created_at" ∈ sortFields)
    (hl : absentOrDigits limit = true) (hp : absentOrDigits p = true) :
    (selectArticles db (some t) order sortBy limit p).outcome = .error topicNotFound := by
  have hkept : keptArticles db (some t) = [] := by
    apply keptArticles_nil_of_no_topic
    intro a ha h
    exact hslug (h ▸ hfk a ha)
  rw [selectArticles_outcome db (some t) order sortBy limit p hv hl hp [] (by
    rw [truthyStr_some t ht, if_pos rfl]
    simp [orderedRows, hkept])]
  have hinc : includes (db.topics.map (·.slug)) (some t) = false := by
    simpa [includes] using hslug
  simp [hinc]

theorem selectArticles_unknown_topic_witness :
    (selectArticles sampleDb (some "hannah") (some "ASC") (some "votes") (some "5")
      none).outcome = .error topicNotFound :=
  selectArticles_unknown_topic sampleDb "hannah" (some "ASC") (some "votes") (some "5") none
    (by unfold DB.topicsKnown; decide) (by decide) (by decide)
    ⟨(orderAccepted_iff _).1 (by decide), by decide⟩ (by decide) (by decide)

/-- C5 (as stated, refuted): `paper` is a topic without articles, yet with
`limit=not-valid` the listing is rejected by the database (code 42703); and when the empty
text is the slug of a topic without articles, the empty topic filter resolves to all three
articles, not to the empty list. -/
theorem known_topic_not_always_empty :
    "paper" ∈ sampleDb.topics.map (·.slug)
      ∧ (∀ a ∈ sampleDb.articles, a.topic ≠ "paper")
      ∧ (selectArticles sampleDb (some "paper") none none (some "not-valid") none).outcome
          = .error (pgError "42703")
      ∧ "" ∈ sampleDbEmptySlug.topics.map (·.slug)
      ∧ (∀ a ∈ sampleDbEmptySlug.articles, a.topic ≠ "")
      ∧ ((selectArticles sampleDbEmptySlug (some "") none none none none).outcome.toOption.map
          (fun rows => rows.map (·.article_id))) = some [5, 1, 11] := by
  refine ⟨by decide, by decide, rfl, by decide, by decide, by decide⟩

/-- C5 (amended): a non-empty topic filter that is the slug of a topic without articles,
with accepted order and sort field and with `limit` and `p` absent or runs of digits,
resolves to the empty list. -/
theorem selectArticles_topic_without_articles (db : DB) (t : String)
    (order sortBy limit p : Option String)
    (ht : t ≠ "") (hslug : t ∈ db.topics.map (·.slug))
    (hnone : ∀ a ∈ db.articles, a.topic ≠ t)
    (hv : isAscOrDesc (order.getD "desc") ∧ sortBy.getD "created_at" ∈ sortFields)
    (hl : absentOrDigits limit = true) (hp : absentOrDigits p = true) :
    (selectArticles db (some t) order sortBy limit p).outcome = .ok [] := by
  have hkept := keptArticles_nil_of_no_topic db t hnone
  rw [selectArticles_outcome db (some t) order sortBy limit p hv hl hp [] (by
    rw [truthyStr_some t ht, if_pos rfl]
    simp [orderedRows, hkept])]
  have hinc : includes (db.topics.map (·.slug)) (some t) = true := by
    simpa [includes] using hslug
  simp [hinc]

theorem selectArticles_topic_without_articles_witness :
    (selectArticles sampleDb (some "paper") (some "asc") (some "title") (some "3")
      (some "1")).outcome = .ok [] :=
  selectArticles_topic_without_articles sampleDb "paper" (some "asc") (some "title")
    (some "3") (some "1") (by decide) (by decide) (by decide)
    ⟨(orderAccepted_iff _).1 (by decide), by decide⟩ (by decide) (by decide)

theorem orderedBy_created_at_desc (a b : ArticleRow) :
    orderedBy "created_at" (toUpperCase "desc") a b ↔ b.created_at ≤ a.created_at := by
  have hd : toUpperCase "desc" = "DESC" := by decide
  rw [hd]
  unfold orderedBy fieldLe
  rw [if_pos rfl, if_neg (by decide), if_neg (by decide), if_neg (by decide),
    if_neg (by decide), if_pos rfl]
  simp

/-- With at least one article in the table, the listing called without any parameter
resolves to at most ten rows, newest first. -/
theorem selectArticles_default_newest_first (db : DB) (hne : db.articles ≠ []) :
    ∃ rows, (selectArticles db none none none none none).outcome = .ok rows
      ∧ rows.length ≤ 10
      ∧ rows.Pairwise (fun a b => b.created_at ≤ a.created_at) := by
  have hrows : ((orderedRows db (if truthyStr none then none else none)
      ((none : Option String).getD "created_at")
      (toUpperCase ((none : Option String).getD "desc"))).drop
        (digitsValue ((none : Option String).getD "0").data)).take
          (digitsValue ((none : Option String).getD "10").data)
      = (orderedRows db none "created_at" (toUpperCase "desc")).take 10 := by
    have hval : digitsValue ((none : Option String).getD "10").data = 10 := by decide
    have hoff : digitsValue ((none : Option String).getD "0").data = 0 := by decide
    rw [hval, hoff]
    simp
  have hout := selectArticles_outcome db none none none none none
    ⟨(orderAccepted_iff _).1 (by decide), by decide⟩ rfl rfl _ hrows.symm
  have hlen : ((orderedRows db none "created_at" (toUpperCase "desc")).take 10).length ≠ 0 := by
    have h0 : 0 < db.articles.length := List.length_pos.2 hne
    simp only [orderedRows, keptArticles, List.length_take, List.length_insertionSort,
      List.length_map]
    omega
  rw [if_neg (by
    rw [Bool.and_eq_true, decide_eq_true_eq]
    exact fun h => hlen h.1)] at hout
  refine ⟨_, hout, List.length_take_le _ _, ?_⟩
  apply List.Pairwise.sublist (List.take_sublist _ _)
  have : IsTotal ArticleRow (orderedBy "created_at" (toUpperCase "desc")) :=
    ⟨fun a b => by
      rw [orderedBy_created_at_desc, orderedBy_created_at_desc]
      exact Nat.le_total _ _⟩
  have : IsTrans ArticleRow (orderedBy "created_at" (toUpperCase "desc")) :=
    ⟨fun a b c hab hbc => by
      rw [orderedBy_created_at_desc] at *
      exact Nat.le_trans hbc hab⟩
  have hs := List.sorted_insertionSort (orderedBy "created_at" (toUpperCase "desc"))
    ((keptArticles db none).map (articleRow db))
  exact List.Pairwise.imp (fun h => (orderedBy_created_at_desc _ _).1 h) hs

theorem selectArticles_default_newest_first_witness :
    ∃ rows, (selectArticles sampleDb none none none none none).outcome = .ok rows
      ∧ rows.length ≤ 10
      ∧ rows.Pairwise (fun a b => b.created_at ≤ a.created_at) :=
  selectArticles_default_newest_first sampleDb (by decide)

/-- C6 (failing input): with no article in the table, the listing called without any
parameter is rejected with 404 "You have made a bad request - this topic does not exist"
although no topic was given, and the handler answers 404 instead of 200 with an empty
list. -/
theorem no_articles_answers_404 (topics : List Topic) (users : List User)
    (comments : List Comment) :
    (selectArticles ⟨topics, users, [], comments⟩ none none none none none).outcome
        = .error topicNotFound
      ∧ getArticles ⟨topics, users, [], comments⟩ none none none none none
        = [⟨404, .msg (some "You have made a bad request - this topic does not exist")⟩] := by
  have h : (selectArticles ⟨topics, users, [], comments⟩ none none none none none).outcome
      = .error topicNotFound := by
    rw [selectArticles_outcome _ none none none none none
      ⟨(orderAccepted_iff _).1 (by decide), by decide⟩ rfl rfl [] (by
        simp [orderedRows, keptArticles, truthyStr])]
    simp [includes]
  refine ⟨h, ?_⟩
  unfold getArticles
  rw [h]
  decide

/-! ### Rows selected by a unique key -/

theorem filter_key_eq {α : Type} (key : α → Int) (l : List α) (a : α)
    (hnd : (l.map key).Nodup) (ha : a ∈ l) :
    l.filter (fun x => decide (key x = key a)) = [a] := by
  induction l with
  | nil => cases ha
  | cons x xs ih =>
    rw [List.map_cons, List.nodup_cons] at hnd
    obtain ⟨hx, hxs⟩ := hnd
    rcases List.mem_cons.1 ha with rfl | ha'
    · have hrest : xs.filter (fun y => decide (key y = key a)) = [] := by
        rw [List.filter_eq_nil_iff]
        intro y hy
        simp only [decide_eq_true_eq]
        intro hk
        exact hx (hk ▸ List.mem_map_of_mem key hy)
      simp [List.filter_cons, hrest]
    · have hne : key x ≠ key a := fun hk => hx (hk ▸ List.mem_map_of_mem key ha')
      simp [List.filter_cons, hne, ih hxs ha']

theorem filter_key_none {α : Type} (key : α → Int) (l : List α) (n : Int)
    (hno : ∀ x ∈ l, key x ≠ n) :
    l.filter (fun x => decide (key x = n)) = []
      ∧ l.filter (fun x => !decide (key x = n)) = l := by
  constructor
  · rw [List.filter_eq_nil_iff]
    intro x hx
    simpa using hno x hx
  · rw [List.filter_eq_self]
    intro x hx
    simpa using hno x hx

theorem filter_map_update {α : Type} (key : α → Int) (g : α → α)
    (hg : ∀ x, key (g x) = key x) (n : Int) (l : List α) :
    (l.map (fun x => if key x = n then g x else x)).filter (fun x => decide (key x = n))
      = (l.filter (fun x => decide (key x = n))).map g := by
  induction l with
  | nil => rfl
  | cons x xs ih =>
    by_cases hx : key x = n
    · simp [List.filter_cons, hx, hg, ih]
    · simp [List.filter_cons, hx, ih]

theorem map_update_none {α : Type} (key : α → Int) (g : α → α) (n : Int) (l : List α)
    (hno : ∀ x ∈ l, key x = n → g x = x) :
    l.map (fun x => if key x = n then g x else x) = l := by
  induction l with
  | nil => rfl
  | cons x xs ih =>
    rw [List.map_cons, ih (fun y hy => hno y (List.mem_cons_of_mem _ hy))]
    by_cases hx : key x = n
    · rw [if_pos hx, hno x (List.mem_cons_self _ _) hx]
    · rw [if_neg hx]

theorem filter_ne_key_eq_erase {α : Type} [DecidableEq α] (key : α → Int) (l : List α) (a : α)
    (hnd : (l.map key).Nodup) (ha : a ∈ l) :
    l.filter (fun x => !decide (key x = key a)) = l.erase a := by
  rw [List.Nodup.erase_eq_filter (List.Nodup.of_map key hnd)]
  apply List.filter_congr
  intro x hx
  by_cases h : x = a
  · simp [h]
  · have hk : key x ≠ key a := fun hk => h (List.inj_on_of_nodup_map hnd hx ha hk)
    simp [h, hk]

/-! ### Votes -/

theorem queryUpdateArticleVotes_found (db : DB) (hk : db.keysUnique) (a : Article)
    (ha : a ∈ db.articles) (aid : String) (haid : pgInt aid = some a.article_id) (d : Int) :
    ∃ db', queryUpdateArticleVotes db (.num d) aid
      = .ok ([{ a with votes := a.votes + d }], db') := by
  unfold queryUpdateArticleVotes
  simp only [pgIntOf, haid]
  refine ⟨{ db with articles := db.articles.map (fun x =>
    if x.article_id = a.article_id then { x with votes := x.votes + d } else x) }, ?_⟩
  rw [filter_map_update Article.article_id (fun x => { x with votes := x.votes + d })
    (fun _ => rfl) a.article_id db.articles, filter_key_eq Article.article_id _ a hk.1 ha]
  rfl

theorem queryUpdateCommentVotes_found (db : DB) (hk : db.keysUnique) (c : Comment)
    (hc : c ∈ db.comments) (cid : String) (hcid : pgInt cid = some c.comment_id) (d : Int) :
    ∃ db', queryUpdateCommentVotes db (.num d) cid
      = .ok ([{ c with votes := c.votes + d }], db') := by
  unfold queryUpdateCommentVotes
  simp only [pgIntOf, hcid]
  refine ⟨{ db with comments := db.comments.map (fun x =>
    if x.comment_id = c.comment_id then { x with votes := x.votes + d } else x) }, ?_⟩
  rw [filter_map_update Comment.comment_id (fun x => { x with votes := x.votes + d })
    (fun _ => rfl) c.comment_id db.comments, filter_key_eq Comment.comment_id _ c hk.2 hc]
  rfl

/-- C7: with unique ids, for every article (and every comment) of the table, every text the
database reads as its id and every integer `N`, negative or not, the update with delta `N`
returns the row with `votes + N` and every other field as it was; with the delta omitted it
returns the row as it was. -/
theorem updateVotes_adds_delta (db : DB) (hk : db.keysUnique) (N : Int) :
    (∀ a ∈ db.articles, ∀ aid : String, pgInt aid = some a.article_id →
        (updateArticleVotes db aid (some (.num N))).outcome
            = .ok { a with votes := a.votes + N }
          ∧ (updateArticleVotes db aid none).outcome = .ok a)
      ∧ (∀ c ∈ db.comments, ∀ cid : String, pgInt cid = some c.comment_id →
        (updateCommentVotes db cid (some (.num N))).outcome
            = .ok { c with votes := c.votes + N }
          ∧ (updateCommentVotes db cid none).outcome = .ok c) := by
  constructor
  · intro a ha aid haid
    constructor
    · obtain ⟨db', h⟩ := queryUpdateArticleVotes_found db hk a ha aid haid N
      unfold updateArticleVotes
      simp only [Option.getD_some, h]
    · obtain ⟨db', h⟩ := queryUpdateArticleVotes_found db hk a ha aid haid 0
      unfold updateArticleVotes
      simp only [Option.getD_none, h, add_zero]
  · intro c hc cid hcid
    constructor
    · obtain ⟨db', h⟩ := queryUpdateCommentVotes_found db hk c hc cid hcid N
      unfold updateCommentVotes
      simp only [Option.getD_some, h]
    · obtain ⟨db', h⟩ := queryUpdateCommentVotes_found db hk c hc cid hcid 0
      unfold updateCommentVotes
      simp only [Option.getD_none, h, add_zero]

theorem sampleDb_keysUnique : sampleDb.keysUnique := by
  unfold DB.keysUnique
  decide

theorem updateVotes_adds_delta_witness :
    sampleDb.keysUnique
      ∧ (updateArticleVotes sampleDb "1" (some (.num (-100)))).outcome
          = .ok ⟨1, "Living in the shadow of a great man", "mitch",
              "I find this existence challenging", 1594329060, 0, "i1"⟩
      ∧ (updateCommentVotes sampleDb " 2" none).outcome
          = .ok ⟨2, "The beautiful thing about treasure is that it exists.", "butter_bridge", 1,
              14, 1604113380⟩ :=
  ⟨sampleDb_keysUnique,
    ((updateVotes_adds_delta sampleDb sampleDb_keysUnique (-100)).1
      ⟨1, "Living in the shadow of a great man", "mitch", "I find this existence challenging",
        1594329060, 100, "i1"⟩ (by decide) "1" (by decide)).1,
    ((updateVotes_adds_delta sampleDb sampleDb_keysUnique (-100)).2
      ⟨2, "The beautiful thing about treasure is that it exists.", "butter_bridge", 1, 14,
        1604113380⟩ (by decide) " 2" (by decide)).2⟩

/-- C8 (as stated, refuted): 100000 is the id of no article and of no comment, yet with the
text delta `not-a-number` the database refuses the statement (22P02) before it looks for
the row: the updates reject with that error and the handlers answer 400, not 404. -/
theorem unknown_id_text_delta_answers_400 :
    pgInt "100000" = some 100000
      ∧ (∀ a ∈ sampleDb.articles, a.article_id ≠ 100000)
      ∧ (∀ c ∈ sampleDb.comments, c.comment_id ≠ 100000)
      ∧ (updateArticleVotes sampleDb "100000" (some (.str "not-a-number"))).outcome
          = .error (pgError "22P02")
      ∧ (patchArticleVotesById sampleDb "100000" (some (.str "not-a-number"))).responses
          = [⟨400, .msg (some "You have made a bad request")⟩]
      ∧ (updateCommentVotes sampleDb "100000" (some (.str "not-a-number"))).outcome
          = .error (pgError "22P02")
      ∧ (patchCommentVotes sampleDb "100000" (some (.str "not-a-number"))).responses
          = [⟨400, .msg (some "You have made a bad request")⟩] := by
  refine ⟨by decide, by decide, by decide, rfl, by decide, rfl, by decide⟩

/-- C8 (amended): for every text the database reads as an integer `n`: with a delta that is
omitted or that the database reads as an integer, `updateArticleVotes` rejects with 404
"article_id not found in the database" if no article has id `n`, and `updateCommentVotes`
with 404 "comment_id not found in the database" if no comment has id `n`; with any other
delta both reject with the error 22P02 of the database; in every case the database is left
as it was. -/
theorem updateVotes_unknown_id (db : DB) (id : String) (n : Int) (hid : pgInt id = some n)
    (votes : Option Json) :
    ((∃ d, pgIntOf (votes.getD (.num 0)) = some d) →
        ((∀ a ∈ db.articles, a.article_id ≠ n) →
          (updateArticleVotes db id votes).outcome = .error articleNotFound
            ∧ (updateArticleVotes db id votes).db = db)
        ∧ ((∀ c ∈ db.comments, c.comment_id ≠ n) →
          (updateCommentVotes db id votes).outcome = .error commentNotFound
            ∧ (updateCommentVotes db id votes).db = db))
      ∧ (pgIntOf (votes.getD (.num 0)) = none →
        (updateArticleVotes db id votes).outcome = .error (pgError "22P02")
          ∧ (updateArticleVotes db id votes).db = db
          ∧ (updateCommentVotes db id votes).outcome = .error (pgError "22P02")
          ∧ (updateCommentVotes db id votes).db = db) := by
  constructor
  · rintro ⟨d, hd⟩
    constructor
    · intro hno
      have hmap := map_update_none Article.article_id
        (fun x => { x with votes := x.votes + d }) n db.articles
        (fun x hx h => absurd h (hno x hx))
      have hq : queryUpdateArticleVotes db (votes.getD (.num 0)) id = .ok ([], db) := by
        unfold queryUpdateArticleVotes
        simp only [hd, hid]
        rw [hmap, (filter_key_none Article.article_id db.articles n hno).1]
      unfold updateArticleVotes
      simp only [hq]
      exact ⟨trivial, trivial⟩
    · intro hno
      have hmap := map_update_none Comment.comment_id
        (fun x => { x with votes := x.votes + d }) n db.comments
        (fun x hx h => absurd h (hno x hx))
      have hq : queryUpdateCommentVotes db (votes.getD (.num 0)) id = .ok ([], db) := by
        unfold queryUpdateCommentVotes
        simp only [hd, hid]
        rw [hmap, (filter_key_none Comment.comment_id db.comments n hno).1]
      unfold updateCommentVotes
      simp only [hq]
      exact ⟨trivial, trivial⟩
  · intro hd
    have hq1 : queryUpdateArticleVotes db (votes.getD (.num 0)) id
        = .error (pgError "22P02") := by
      unfold queryUpdateArticleVotes
      simp only [hd]
    have hq2 : queryUpdateCommentVotes db (votes.getD (.num 0)) id
        = .error (pgError "22P02") := by
      unfold queryUpdateCommentVotes
      simp only [hd]
    unfold updateArticleVotes updateCommentVotes
    simp only [hq1, hq2]
    exact ⟨trivial, trivial, trivial, trivial⟩

theorem updateVotes_unknown_id_witness :
    ((updateArticleVotes sampleDb "100000" (some (.num 1))).outcome = .error articleNotFound
        ∧ (updateArticleVotes sampleDb "100000" (some (.num 1))).db = sampleDb)
      ∧ ((updateCommentVotes sampleDb "100000" none).outcome = .error commentNotFound
        ∧ (updateCommentVotes sampleDb "100000" none).db = sampleDb)
      ∧ ((updateArticleVotes sampleDb "100000" (some (.str "not-a-number"))).outcome
          = .error (pgError "22P02")
        ∧ (updateArticleVotes sampleDb "100000" (some (.str "not-a-number"))).db
          = sampleDb) :=
  ⟨((updateVotes_unknown_id sampleDb "100000" 100000 (by decide) (some (.num 1))).1
      ⟨1, rfl⟩).1 (by decide),
    ((updateVotes_unknown_id sampleDb "100000" 100000 (by decide) none).1 ⟨0, rfl⟩).2
      (by decide),
    ⟨((updateVotes_unknown_id sampleDb "100000" 100000 (by decide)
        (some (.str "not-a-number"))).2 (by decide)).1,
      ((updateVotes_unknown_id sampleDb "100000" 100000 (by decide)
        (some (.str "not-a-number"))).2 (by decide)).2.1⟩⟩

/-! ### Deleting a comment -/

theorem removeComment_unmatched (db : DB) (cid : String)
    (hno : ∀ c ∈ db.comments, pgInt cid ≠ some c.comment_id) :
    (removeComment db cid).db = db
      ∧ ∀ n, pgInt cid = some n →
        (removeComment db cid).responses
          = [⟨404, .msg (some "comment_id not found in the database")⟩] := by
  unfold removeComment deleteComment queryDeleteComment
  cases hp : pgInt cid with
  | none => exact ⟨rfl, fun n h => by cases h⟩
  | some n =>
    have hno' : ∀ c ∈ db.comments, c.comment_id ≠ n := by
      intro c hc h
      exact hno c hc (by rw [hp, h])
    obtain ⟨h1, h2⟩ := filter_key_none Comment.comment_id db.comments n hno'
    simp only [h1, h2, List.length_nil]
    refine ⟨rfl, fun _ _ => ?_⟩
    rw [if_neg (by decide)]
    rfl

/-- C9: with unique ids, for every comment of the table and every text the database reads
as its id, the first DELETE answers 204 with no body and removes that comment and nothing
else; a second DELETE of the same id answers 404 "comment_id not found in the database" and
changes nothing; and a DELETE with an id that matches no comment leaves the database as it
was. -/
theorem removeComment_twice (db : DB) (hk : db.keysUnique) (c : Comment)
    (hc : c ∈ db.comments) (cid : String) (hcid : pgInt cid = some c.comment_id) :
    removeComment db cid
        = ⟨[⟨204, .empty⟩], { db with comments := db.comments.erase c }⟩
      ∧ removeComment (removeComment db cid).db cid
        = ⟨[⟨404, .msg (some "comment_id not found in the database")⟩],
            { db with comments := db.comments.erase c }⟩
      ∧ ∀ other : String, (∀ c' ∈ db.comments, pgInt other ≠ some c'.comment_id) →
          (removeComment db other).db = db := by
  have h1 : removeComment db cid
      = ⟨[⟨204, .empty⟩], { db with comments := db.comments.erase c }⟩ := by
    unfold removeComment deleteComment queryDeleteComment
    simp only [hcid]
    rw [filter_key_eq Comment.comment_id db.comments c hk.2 hc,
      filter_ne_key_eq_erase Comment.comment_id db.comments c hk.2 hc]
    rfl
  have hgone : ∀ c' ∈ ({ db with comments := db.comments.erase c } : DB).comments,
      pgInt cid ≠ some c'.comment_id := by
    intro c' hc' h
    rw [hcid] at h
    have hnd : db.comments.Nodup := List.Nodup.of_map _ hk.2
    obtain ⟨hne, hmem⟩ := (List.Nodup.mem_erase_iff hnd).1 hc'
    exact hne (List.inj_on_of_nodup_map hk.2 hmem hc (Option.some.inj h).symm)
  refine ⟨h1, ?_, fun other hno => (removeComment_unmatched db other hno).1⟩
  rw [h1]
  obtain ⟨h2, h3⟩ := removeComment_unmatched _ cid hgone
  have h4 := h3 _ hcid
  cases hr : removeComment { db with comments := db.comments.erase c } cid with
  | mk responses db' =>
    rw [hr] at h2 h4
    simp only at h2 h4
    rw [h2, h4]

theorem removeComment_twice_witness :
    (removeComment sampleDb "5").responses = [⟨204, .empty⟩]
      ∧ (removeComment sampleDb "5").db.comments
          = [⟨2, "The beautiful thing about treasure is that it exists.", "butter_bridge", 1,
              14, 1604113380⟩]
      ∧ (removeComment (removeComment sampleDb "5").db "5").responses
          = [⟨404, .msg (some "comment_id not found in the database")⟩]
      ∧ (removeComment sampleDb "10000").db = sampleDb :=
  have h := removeComment_twice sampleDb sampleDb_keysUnique
    ⟨5, "I hate streaming noses", "icellusedkars", 1, 0, 1604437200⟩ (by decide) "5"
    (by decide)
  ⟨by rw [h.1], by rw [h.1]; decide, by rw [h.2.1], h.2.2 "10000" (by decide)⟩

/-! ### Integers written as text and read back -/

theorem digitChar_facts (k : Nat) (hk : k < 10) :
    (Nat.digitChar k).isDigit = true ∧ (Nat.digitChar k).toNat - 48 = k := by
  interval_cases k <;> decide

theorem toDigitsCore_spec (fuel : Nat) : ∀ (n : Nat) (ds : List Char), n < fuel →
    ∃ xs, Nat.toDigitsCore 10 fuel n ds = xs ++ ds ∧ xs ≠ [] ∧ xs.all Char.isDigit = true
      ∧ digitsValue xs = n := by
  induction fuel with
  | zero => intro n ds h; omega
  | succ fuel ih =>
    intro n ds h
    obtain ⟨hd, hv⟩ := digitChar_facts (n % 10) (Nat.mod_lt _ (by decide))
    unfold Nat.toDigitsCore
    simp only []
    by_cases h0 : n / 10 = 0
    · rw [if_pos h0]
      refine ⟨[Nat.digitChar (n % 10)], rfl, by simp, by simp [hd], ?_⟩
      simp only [digitsValue, List.foldl, hv]
      omega
    · rw [if_neg h0]
      obtain ⟨xs, hxs, hne, hall, hval⟩ :=
        ih (n / 10) (Nat.digitChar (n % 10) :: ds) (by omega)
      refine ⟨xs ++ [Nat.digitChar (n % 10)], by rw [hxs]; simp, by simp,
        by simp [hall, hd], ?_⟩
      unfold digitsValue at hval ⊢
      rw [List.foldl_append, hval]
      simp only [List.foldl, hv]
      omega

theorem toDigits_spec (n : Nat) :
    isDigits (Nat.toDigits 10 n) = true ∧ digitsValue (Nat.toDigits 10 n) = n := by
  obtain ⟨xs, hxs, hne, hall, hval⟩ := toDigitsCore_spec (n + 1) n [] (by omega)
  unfold Nat.toDigits
  rw [hxs, List.append_nil]
  refine ⟨?_, hval⟩
  unfold isDigits
  cases xs with
  | nil => exact absurd rfl hne
  | cons x xs => simpa using hall

theorem trimBlanks_minus_digits (ds : List Char) (h : isDigits ds = true) :
    trimBlanks ('-' :: ds) = '-' :: ds := by
  unfold isDigits at h
  simp only [Bool.and_eq_true] at h
  have hrev : (ds.reverse ++ ['-']).dropWhile Char.isWhitespace = ds.reverse ++ ['-'] := by
    cases hr : ds.reverse with
    | nil =>
      have : ds = [] := by simpa using hr
      rw [this] at h
      simp at h
    | cons y ys =>
      have hy : y ∈ ds := by
        have : y ∈ ds.reverse := by rw [hr]; exact List.mem_cons_self _ _
        simpa using this
      have hyd : y.isDigit = true := (List.all_eq_true.1 h.2) y hy
      simp [List.dropWhile, digit_not_blank y hyd]
  unfold trimBlanks
  have h1 : ('-' :: ds).dropWhile Char.isWhitespace = '-' :: ds := by
    simp [List.dropWhile, show Char.isWhitespace '-' = false by decide]
  rw [h1, List.reverse_cons, hrev]
  simp

/-- The decimal text of an integer is read back by the database as that integer. -/
theorem pgInt_toString (m : Int) : pgInt (toString m) = some m := by
  cases m with
  | ofNat k =>
    obtain ⟨hd, hv⟩ := toDigits_spec k
    have hdata : (toString (Int.ofNat k)).data = Nat.toDigits 10 k := rfl
    unfold pgInt
    rw [hdata, trimBlanks_digits _ hd]
    split
    · rename_i ds h0
      rw [h0] at hd
      simp [isDigits] at hd
    · rename_i ds h0
      rw [h0] at hd
      simp [isDigits] at hd
    · rw [if_pos hd, hv]
      rfl
  | negSucc k =>
    obtain ⟨hd, hv⟩ := toDigits_spec (k + 1)
    have hdata : (toString (Int.negSucc k)).data = '-' :: Nat.toDigits 10 (k + 1) := rfl
    unfold pgInt
    rw [hdata, trimBlanks_minus_digits _ hd]
    simp only [hd, if_true, hv]
    rfl

/-! ### Comments of an article -/

theorem queryComments_none (db : DB) (aid : String) (n : Int) (limit p : Option String)
    (hid : pgInt aid = some n) (hno : ∀ c ∈ db.comments, c.article_id ≠ n)
    (hl : absentOrDigits limit = true) (hp : absentOrDigits p = true) :
    queryComments db aid (limit.getD "10") (p.getD "0") = .ok [] := by
  unfold queryComments
  rw [pgWindow_digits limit p hl hp]
  simp only [hid, pgSlice_nat]
  rw [(filter_key_none Comment.article_id db.comments n hno).1]
  simp

/-- An article without comments, asked for by the decimal text of its id, has the empty
list of comments. -/
theorem selectComments_of_article_without_comments (db : DB) (a : Article)
    (ha : a ∈ db.articles) (hno : ∀ c ∈ db.comments, c.article_id ≠ a.article_id)
    (limit p : Option String)
    (hl : absentOrDigits limit = true) (hp : absentOrDigits p = true) :
    (selectCommentsByArticleId db (toString a.article_id) limit p).outcome = .ok [] := by
  unfold selectCommentsByArticleId
  simp only []
  rw [queryComments_none db _ a.article_id limit p (pgInt_toString _) hno hl hp]
  have hin : (db.articles.map (fun x => toString x.article_id)).contains
      (toString a.article_id) = true := by
    rw [List.contains_iff_exists_mem_beq]
    exact ⟨_, List.mem_map_of_mem _ ha, by simp⟩
  rw [hin]
  rfl

theorem selectComments_of_article_without_comments_witness :
    (selectCommentsByArticleId sampleDb (toString (11 : Int)) none (some "3")).outcome
      = .ok [] :=
  selectComments_of_article_without_comments sampleDb
    ⟨11, "Am I a cat?", "mitch", "Having run out of ideas for articles", 1579126860, 0, "i11"⟩
    (by decide) (by decide) none (some "3") (by decide) (by decide)

/-- When every comment belongs to an article of the table, a text the database reads as
an integer that is the id of no article is rejected with 404 "article_id not found in the
database". -/
theorem selectComments_of_unknown_article (db : DB) (hfk : db.commentsKnown)
    (aid : String) (n : Int) (hid : pgInt aid = some n)
    (hno : ∀ a ∈ db.articles, a.article_id ≠ n) (limit p : Option String)
    (hl : absentOrDigits limit = true) (hp : absentOrDigits p = true) :
    (selectCommentsByArticleId db aid limit p).outcome = .error articleNotFound := by
  have hnoc : ∀ c ∈ db.comments, c.article_id ≠ n := by
    intro c hc h
    obtain ⟨a, ha, hac⟩ := hfk c hc
    exact hno a ha (hac.trans h)
  unfold selectCommentsByArticleId
  simp only []
  rw [queryComments_none db aid n limit p hid hnoc hl hp]
  have hout : (db.articles.map (fun x => toString x.article_id)).contains aid = false := by
    rw [Bool.eq_false_iff]
    intro hc
    rw [List.contains_iff_exists_mem_beq] at hc
    obtain ⟨t, ht, hbeq⟩ := hc
    obtain ⟨a, ha, rfl⟩ := List.mem_map.1 ht
    have heq : aid = toString a.article_id := by simpa using hbeq
    rw [heq, pgInt_toString] at hid
    exact hno a ha (Option.some.inj hid)
  rw [hout]
  rfl

theorem selectComments_of_unknown_article_witness :
    (selectCommentsByArticleId sampleDb "100000" none none).outcome
      = .error articleNotFound :=
  selectComments_of_unknown_article sampleDb (by unfold DB.commentsKnown; decide)
    "100000" 100000 (by decide) (by decide) none none (by decide) (by decide)


/-- C10 (failing input): article 11 exists and has no comment, and the database reads the
path parameter `011` as 11 (`selectArticleById` resolves it to that article); yet
`selectCommentsByArticleId` rejects `011` with 404 "article_id not found in the database",
because it looks the parameter up, as text, among the ids written as text. With `11` it
resolves to the empty list. -/
theorem leading_zero_id_answers_404 :
    pgInt "011" = some 11
      ∧ (∃ a ∈ sampleDb.articles, a.article_id = 11)
      ∧ (∀ c ∈ sampleDb.comments, c.article_id ≠ 11)
      ∧ (selectArticleById sampleDb "011").outcome.toOption.map (·.article_id) = some 11
      ∧ (selectCommentsByArticleId sampleDb "011" none none).outcome = .error articleNotFound
      ∧ getCommentsByArticleId sampleDb "011" none none
          = [⟨404, .msg (some "article_id not found in the database")⟩]
      ∧ getCommentsByArticleId sampleDb "11" none none = [⟨200, .comments []⟩] := by
  refine ⟨by decide, by decide, by decide, by decide, rfl, by decide, by decide⟩

/-! ### Posting a comment -/

/-- C11: when `username` or `body` is missing, `insertComments` rejects with status 400
"You have made a bad request", issues no query and leaves the database as it was,
whatever the article id. -/
theorem insertComments_missing_field (db : DB) (gen : Generated) (article_id : Option Int)
    (username body : Option String) (h : username = none ∨ body = none) :
    (insertComments db gen article_id username body).outcome = .error badRequest
      ∧ (insertComments db gen article_id username body).calls = []
      ∧ (insertComments db gen article_id username body).db = db := by
  unfold insertComments
  cases body with
  | none => exact ⟨rfl, rfl, rfl⟩
  | some b =>
    cases username with
    | none => exact ⟨rfl, rfl, rfl⟩
    | some u => rcases h with h | h <;> cases h

theorem insertComments_missing_field_witness :
    (insertComments sampleDb ⟨19, 1700000000⟩ (some 1) (some "icellusedkars") none).outcome
        = .error badRequest
      ∧ (insertComments sampleDb ⟨19, 1700000000⟩ (some 1) (some "icellusedkars") none).calls
        = []
      ∧ (insertComments sampleDb ⟨19, 1700000000⟩ (some 1) (some "icellusedkars") none).db
        = sampleDb :=
  insertComments_missing_field sampleDb ⟨19, 1700000000⟩ (some 1) (some "icellusedkars") none
    (Or.inr rfl)

theorem queryUsersByUsername_nil (db : DB) (username : String)
    (hno : ∀ u ∈ db.users, u.username ≠ username) : queryUsersByUsername db username = [] := by
  unfold queryUsersByUsername
  rw [List.filter_eq_nil_iff]
  intro u hu
  simpa using hno u hu

theorem queryUsersByUsername_pos (db : DB) (username : String)
    (hu : ∃ u ∈ db.users, u.username = username) :
    (queryUsersByUsername db username).length > 0 := by
  obtain ⟨u, hmem, hname⟩ := hu
  apply List.length_pos_of_mem (a := u)
  unfold queryUsersByUsername
  rw [List.mem_filter]
  exact ⟨hmem, by simpa using hname⟩

theorem queryInsertComment_error (db : DB) (gen : Generated) (body author aid : String)
    (e : Err) (h : queryInsertComment db gen body author aid = .error e) :
    e = pgError "22P02" ∨ e = pgError "23505" ∨ e = pgError "23503" := by
  unfold queryInsertComment at h
  split at h
  · cases h; exact Or.inl rfl
  · split at h
    · cases h; exact Or.inr (Or.inl rfl)
    · split at h
      · cases h; exact Or.inr (Or.inr rfl)
      · cases h

/-- C12: with both fields present and a username that is the name of no user,
`insertComments` rejects with 404 "username not found in the database", the only query it
issues is the SELECT on users (no INSERT) and the database is as it was, whatever the
article id. And the handler answers 404 "Value not found in the database" only when both
fields are present, the username is the name of a user and the INSERT fails with the
foreign-key violation 23503. -/
theorem insertComments_unknown_username (db : DB) (gen : Generated)
    (article_id : Option Int) (username body : String)
    (hno : ∀ u ∈ db.users, u.username ≠ username) :
    (insertComments db gen article_id (some username) (some body)).outcome
        = .error usernameNotFound
      ∧ (insertComments db gen article_id (some username) (some body)).calls
        = [⟨"SELECT * FROM users WHERE username = $1", [username]⟩]
      ∧ (insertComments db gen article_id (some username) (some body)).db = db
      ∧ ∀ (param : String) (u b : Option String),
          (postCommentsByArticleId db gen param u b).responses
            = [⟨404, .msg (some "Value not found in the database")⟩] →
          ∃ name text, u = some name ∧ b = some text
            ∧ (∃ x ∈ db.users, x.username = name)
            ∧ queryInsertComment db gen text name (numberText (parseInt param))
              = .error (pgError "23503") := by
  have h0 := queryUsersByUsername_nil db username hno
  refine ⟨?_, ?_, ?_, ?_⟩
  · unfold insertComments
    simp only [h0, List.length_nil, gt_iff_lt, lt_irrefl, if_false]
  · unfold insertComments
    simp only [h0, List.length_nil, gt_iff_lt, lt_irrefl, if_false]
  · unfold insertComments
    simp only [h0, List.length_nil, gt_iff_lt, lt_irrefl, if_false]
  · intro param u b hresp
    have hbad : errorPipeline badRequest
        ≠ [⟨404, .msg (some "Value not found in the database")⟩] := by decide
    have huser : errorPipeline usernameNotFound
        ≠ [⟨404, .msg (some "Value not found in the database")⟩] := by decide
    have h1 : errorPipeline (pgError "22P02")
        ≠ [⟨404, .msg (some "Value not found in the database")⟩] := by decide
    have h2 : errorPipeline (pgError "23505")
        ≠ [⟨404, .msg (some "Value not found in the database")⟩] := by decide
    cases b with
    | none =>
      cases u <;> exact absurd hresp hbad
    | some text =>
      cases u with
      | none => exact absurd hresp hbad
      | some name =>
        simp only [postCommentsByArticleId, insertComments] at hresp
        by_cases hlen : (queryUsersByUsername db name).length > 0
        · rw [if_pos hlen] at hresp
          have hknown : ∃ x ∈ db.users, x.username = name := by
            obtain ⟨x, hx⟩ := List.exists_mem_of_length_pos hlen
            unfold queryUsersByUsername at hx
            rw [List.mem_filter] at hx
            exact ⟨x, hx.1, by simpa using hx.2⟩
          refine ⟨name, text, rfl, rfl, hknown, ?_⟩
          cases hq : queryInsertComment db gen text name (numberText (parseInt param)) with
          | error e =>
            rw [hq] at hresp
            rcases queryInsertComment_error _ _ _ _ _ _ hq with rfl | rfl | rfl
            · exact absurd hresp h1
            · exact absurd hresp h2
            · rfl
          | ok r =>
            rw [hq] at hresp
            simp [respond] at hresp
        · rw [if_neg hlen] at hresp
          exact absurd hresp huser

theorem insertComments_unknown_username_witness :
    (insertComments sampleDb ⟨19, 1700000000⟩ (some 100000) (some "han")
        (some "this is great!")).outcome = .error usernameNotFound
      ∧ (insertComments sampleDb ⟨19, 1700000000⟩ (some 100000) (some "han")
        (some "this is great!")).calls
          = [⟨"SELECT * FROM users WHERE username = $1", ["han"]⟩]
      ∧ (insertComments sampleDb ⟨19, 1700000000⟩ (some 100000) (some "han")
        (some "this is great!")).db = sampleDb :=
  have h := insertComments_unknown_username sampleDb ⟨19, 1700000000⟩ (some 100000) "han"
    "this is great!" (by decide)
  ⟨h.1, h.2.1, h.2.2.1⟩

theorem queryInsertComment_ok (db : DB) (gen : Generated) (n : Int) (username body : String)
    (hu : ∃ u ∈ db.users, u.username = username)
    (ha : ∃ a ∈ db.articles, a.article_id = n)
    (hfresh : ∀ c ∈ db.comments, c.comment_id ≠ gen.comment_id) :
    queryInsertComment db gen body username (numberText (some n))
      = .ok (⟨gen.comment_id, body, username, n, 0, gen.created_at⟩,
          { db with comments := db.comments
              ++ [⟨gen.comment_id, body, username, n, 0, gen.created_at⟩] }) := by
  unfold queryInsertComment numberText
  rw [pgInt_toString]
  have h1 : (db.comments.map (·.comment_id)).contains gen.comment_id = false := by
    rw [Bool.eq_false_iff]
    intro hc
    rw [List.contains_iff_exists_mem_beq] at hc
    obtain ⟨x, hx, hbeq⟩ := hc
    obtain ⟨c, hcm, rfl⟩ := List.mem_map.1 hx
    have heq : gen.comment_id = c.comment_id := by simpa using hbeq
    exact hfresh c hcm heq.symm
  have h2 : (db.users.map (·.username)).contains username = true := by
    obtain ⟨u, hmem, hname⟩ := hu
    rw [List.contains_iff_exists_mem_beq]
    exact ⟨_, List.mem_map_of_mem _ hmem, by simp [hname]⟩
  have h3 : (db.articles.map (·.article_id)).contains n = true := by
    obtain ⟨a, hmem, hid⟩ := ha
    rw [List.contains_iff_exists_mem_beq]
    exact ⟨_, List.mem_map_of_mem _ hmem, by simp [hid]⟩
  simp only [h1, h2, h3]
  rfl

/-- C13: for every username that is the name of a user, every body, every id of an
article of the table and every generated comment id not yet in use, `insertComments` adds
exactly one comment, with the given body, author and article id, zero votes and the
generated id and time, at the end of the table and changes nothing else; it resolves to
that row; and the handler, called with a path parameter that `parseInt` reads as the id,
answers 201 with that comment. -/
theorem insertComments_adds_comment (db : DB) (gen : Generated) (n : Int)
    (username body : String)
    (hu : ∃ u ∈ db.users, u.username = username)
    (ha : ∃ a ∈ db.articles, a.article_id = n)
    (hfresh : ∀ c ∈ db.comments, c.comment_id ≠ gen.comment_id) :
    (insertComments db gen (some n) (some username) (some body)).outcome
        = .ok ⟨gen.comment_id, body, username, n, 0, gen.created_at⟩
      ∧ (insertComments db gen (some n) (some username) (some body)).db
        = { db with comments := db.comments
              ++ [⟨gen.comment_id, body, username, n, 0, gen.created_at⟩] }
      ∧ ∀ param : String, parseInt param = some n →
          postCommentsByArticleId db gen param (some username) (some body)
            = ⟨[⟨201, .comment ⟨gen.comment_id, body, username, n, 0, gen.created_at⟩⟩],
                { db with comments := db.comments
                    ++ [⟨gen.comment_id, body, username, n, 0, gen.created_at⟩] }⟩ := by
  have hlen := queryUsersByUsername_pos db username hu
  have hq := queryInsertComment_ok db gen n username body hu ha hfresh
  have hout : (insertComments db gen (some n) (some username) (some body)).outcome
        = .ok ⟨gen.comment_id, body, username, n, 0, gen.created_at⟩
      ∧ (insertComments db gen (some n) (some username) (some body)).db
        = { db with comments := db.comments
              ++ [⟨gen.comment_id, body, username, n, 0, gen.created_at⟩] } := by
    unfold insertComments
    simp only [hlen, if_true, hq]
    exact ⟨trivial, trivial⟩
  refine ⟨hout.1, hout.2, ?_⟩
  intro param hparam
  unfold postCommentsByArticleId
  simp only [hparam, hout.1, hout.2]
  rfl

theorem insertComments_adds_comment_witness :
    (insertComments sampleDb ⟨19, 1700000000⟩ (some 1) (some "icellusedkars")
        (some "this is great!")).outcome
        = .ok ⟨19, "this is great!", "icellusedkars", 1, 0, 1700000000⟩
      ∧ (postCommentsByArticleId sampleDb ⟨19, 1700000000⟩ "1" (some "icellusedkars")
          (some "this is great!")).responses
        = [⟨201, .comment ⟨19, "this is great!", "icellusedkars", 1, 0, 1700000000⟩⟩] :=
  have h := insertComments_adds_comment sampleDb ⟨19, 1700000000⟩ 1 "icellusedkars"
    "this is great!" (by decide) (by decide) (by decide)
  ⟨h.1, by rw [h.2.2 "1" (by decide)]⟩

/-- When `parseInt` finds no digit in the path parameter, a post with a known username and
a body is answered 400 "You have made a bad request" and the database is as it was: the
database refuses the text NaN bound to the article id. -/
theorem postComments_without_digits (db : DB) (gen : Generated) (param username body : String)
    (hparam : parseInt param = none) (hu : ∃ u ∈ db.users, u.username = username) :
    postCommentsByArticleId db gen param (some username) (some body)
      = ⟨[⟨400, .msg (some "You have made a bad request")⟩], db⟩ := by
  have hlen := queryUsersByUsername_pos db username hu
  have hq : queryInsertComment db gen body username (numberText none)
      = .error (pgError "22P02") := by
    unfold queryInsertComment numberText
    rw [show pgInt "NaN" = none by decide]
  unfold postCommentsByArticleId insertComments
  simp only [hparam, hlen, if_true, hq]
  rfl

theorem postComments_without_digits_witness :
    postCommentsByArticleId sampleDb ⟨19, 1700000000⟩ "not-a-number" (some "icellusedkars")
        (some "this is great!")
      = ⟨[⟨400, .msg (some "You have made a bad request")⟩], sampleDb⟩ :=
  postComments_without_digits sampleDb ⟨19, 1700000000⟩ "not-a-number" "icellusedkars"
    "this is great!" (by decide) (by decide)

/-- C14 (failing input): the path parameter `1abc` is no numeric text (the database
refuses it, and the handlers that pass it on as it is answer 400), yet `parseInt` reads it
as 1, and the post with a known username and a body is answered 201 and adds a comment to
article 1. -/
theorem trailing_text_id_is_posted :
    pgInt "1abc" = none
      ∧ parseInt "1abc" = some 1
      ∧ getArticleById sampleDb "1abc" = [⟨400, .msg (some "You have made a bad request")⟩]
      ∧ getCommentsByArticleId sampleDb "1abc" none none
          = [⟨400, .msg (some "You have made a bad request")⟩]
      ∧ postCommentsByArticleId sampleDb ⟨19, 1700000000⟩ "1abc" (some "icellusedkars")
          (some "this is great!")
        = ⟨[⟨201, .comment ⟨19, "this is great!", "icellusedkars", 1, 0, 1700000000⟩⟩],
            { sampleDb with comments := sampleDb.comments
                ++ [⟨19, "this is great!", "icellusedkars", 1, 0, 1700000000⟩] }⟩ := by
  refine ⟨by decide, by decide, by decide, by decide, by decide⟩

/-! ### One article -/

/-- C15: with unique ids, for every article of the table and every text the database reads
as its id, `selectArticleById` resolves to the columns of that article with
`comment_count` the number of comments whose `article_id` is that id; and for every text
the database reads as an integer that is the id of no article it rejects with 404
"article_id not found in the database". -/
theorem selectArticleById_counts_comments (db : DB) (hk : db.keysUnique) :
    (∀ a ∈ db.articles, ∀ aid : String, pgInt aid = some a.article_id →
        (selectArticleById db aid).outcome
          = .ok ⟨a.article_id, a.title, a.topic, a.body, a.created_at, a.votes,
              a.article_img_url,
              db.comments.countP (fun c => decide (c.article_id = a.article_id))⟩)
      ∧ (∀ (aid : String) (n : Int), pgInt aid = some n →
        (∀ a ∈ db.articles, a.article_id ≠ n) →
        (selectArticleById db aid).outcome = .error articleNotFound) := by
  constructor
  · intro a ha aid haid
    unfold selectArticleById queryArticleById
    simp only [haid]
    rw [filter_key_eq Article.article_id db.articles a hk.1 ha]
    simp only [List.map_cons, List.map_nil, articleRow, List.countP_eq_length_filter]
  · intro aid n haid hno
    unfold selectArticleById queryArticleById
    simp only [haid]
    rw [(filter_key_none Article.article_id db.articles n hno).1]
    rfl

theorem selectArticleById_counts_comments_witness :
    (selectArticleById sampleDb "1").outcome
        = .ok ⟨1, "Living in the shadow of a great man", "mitch",
            "I find this existence challenging", 1594329060, 100, "i1", 2⟩
      ∧ (selectArticleById sampleDb "11").outcome
        = .ok ⟨11, "Am I a cat?", "mitch", "Having run out of ideas for articles", 1579126860,
            0, "i11", 0⟩
      ∧ (selectArticleById sampleDb "100000").outcome = .error articleNotFound :=
  ⟨(selectArticleById_counts_comments sampleDb sampleDb_keysUnique).1
      ⟨1, "Living in the shadow of a great man", "mitch", "I find this existence challenging",
        1594329060, 100, "i1"⟩ (by decide) "1" (by decide),
    (selectArticleById_counts_comments sampleDb sampleDb_keysUnique).1
      ⟨11, "Am I a cat?", "mitch", "Having run out of ideas for articles", 1579126860, 0,
        "i11"⟩ (by decide) "11" (by decide),
    (selectArticleById_counts_comments sampleDb sampleDb_keysUnique).2 "100000" 100000
      (by decide) (by decide)⟩

/-! ### Requests no route handles -/

/-- C16 (as stated, refuted): none of the three requests matches any of the eleven
routes, yet the OPTIONS request is answered 204 by `cors()` before the router is reached,
the POST whose body `express.json()` refuses is answered through the error pipeline with
the status of that error, and for `GET /%` the catch-all fails to decode what it captures
and the error pipeline answers 400. -/
theorem unmatched_not_always_route_not_found :
    routes.length = 11
      ∧ (∀ r ∈ routes, routeMatches r ⟨"OPTIONS", "/api/non-existent", none⟩ = false)
      ∧ (∀ handlers final,
          answer handlers final ⟨"OPTIONS", "/api/non-existent", none⟩ = [⟨204, .empty⟩])
      ∧ (∀ r ∈ routes, routeMatches r ⟨"POST", "/api/non-existent", some 400⟩ = false)
      ∧ dispatch ⟨"POST", "/api/non-existent", some 400⟩ = .failed { status := some 400 }
      ∧ (∀ handlers final,
          answer handlers final ⟨"POST", "/api/non-existent", some 400⟩
            = [⟨400, .msg none⟩])
      ∧ (∀ r ∈ routes, routeMatches r ⟨"GET", "/%", none⟩ = false)
      ∧ dispatch ⟨"GET", "/%", none⟩ = .failed { status := some 400 }
      ∧ (∀ handlers final, answer handlers final ⟨"GET", "/%", none⟩ = [⟨400, .msg none⟩]) := by
  have h400 : errorPipeline { status := some 400 } = [⟨400, .msg none⟩] := by decide
  refine ⟨rfl, by decide, fun _ _ => rfl, by decide, by decide, fun _ _ => ?_, by decide,
    by decide, fun _ _ => ?_⟩
  · unfold answer
    rw [show dispatch ⟨"POST", "/api/non-existent", some 400⟩
      = .failed { status := some 400 } by decide]
    exact h400
  · unfold answer
    rw [show dispatch ⟨"GET", "/%", none⟩ = .failed { status := some 400 } by decide]
    exact h400

theorem captured_subset (ps : List Segment) (ss : List String) :
    ∀ s ∈ captured ps ss, s ∈ ss := by
  induction ps generalizing ss with
  | nil => intro s hs; simp [captured] at hs
  | cons p ps ih =>
    cases ss with
    | nil => intro s hs; cases p <;> simp [captured] at hs
    | cons t ts =>
      intro s hs
      cases p with
      | word w =>
        simp only [captured] at hs
        exact List.mem_cons_of_mem _ (ih ts s hs)
      | param name =>
        simp only [captured, List.mem_cons] at hs
        rcases hs with rfl | hs
        · exact List.mem_cons_self _ _
        · exact List.mem_cons_of_mem _ (ih ts s hs)

theorem walkRoutes_unmatched (req : Request) (hp : req.path.data.head? = some '/')
    (hdec : pathDecodes req.path = true) (rs : List Route)
    (hno : ∀ r ∈ rs, routeMatches r req = false) :
    walkRoutes req rs false = .unrouted := by
  unfold pathDecodes at hdec
  rw [Bool.and_eq_true] at hdec
  induction rs with
  | nil =>
    unfold walkRoutes
    simp only [Bool.false_eq_true, if_false, hp, if_true, hdec.1]
  | cons r rs ih =>
    have ih' := ih (fun x hx => hno x (List.mem_cons_of_mem _ hx))
    have hr := hno r (List.mem_cons_self _ _)
    unfold walkRoutes
    by_cases hpm : pathMatches r req = true
    · rw [if_pos hpm]
      have hcap : (captured r.path ((pathSegments req.path).getD [])).all decodes = true := by
        rw [List.all_eq_true]
        intro s hs
        have hmem := captured_subset _ _ s hs
        cases hseg : pathSegments req.path with
        | none =>
          rw [hseg] at hmem
          simp at hmem
        | some segs =>
          rw [hseg] at hmem
          have hall := hdec.2
          rw [hseg] at hall
          exact (List.all_eq_true.1 hall) s hmem
      have hmeth : methodHandled r req = false := by
        unfold routeMatches at hr
        unfold pathMatches at hpm
        unfold methodHandled
        rw [hpm, Bool.and_true] at hr
        exact hr
      simp only [hcap, hmeth, Bool.not_true, Bool.false_eq_true, if_false, Bool.and_false]
      exact ih'
    · rw [if_neg hpm]
      exact ih'

/-- C16 (amended): a request whose method is not OPTIONS, whose body `express.json()`
accepts, whose path begins with a slash and holds no percent-escape that fails to decode,
and which none of the eleven routes matches is caught by `app.all("/*")` and answered 404
"Route not found", whatever the handlers are: no handler and no error middleware takes
part. -/
theorem unmatched_route_not_found (handlers : Handler → List Response)
    (final : List Response) (req : Request)
    (hm : req.method ≠ "OPTIONS") (hb : req.bodyError = none)
    (hp : req.path.data.head? = some '/') (hdec : pathDecodes req.path = true)
    (hno : ∀ r ∈ routes, routeMatches r req = false) :
    routes.length = 11
      ∧ dispatch req = .unrouted
      ∧ answer handlers final req = [⟨404, .msg (some "Route not found")⟩] := by
  have hd : dispatch req = .unrouted := by
    unfold dispatch
    rw [if_neg hm, hb]
    exact walkRoutes_unmatched req hp hdec routes hno
  refine ⟨rfl, hd, ?_⟩
  unfold answer
  rw [hd]

theorem unmatched_route_not_found_witness :
    routes.length = 11
      ∧ dispatch ⟨"GET", "/api/non-existent", none⟩ = .unrouted
      ∧ answer (fun _ => []) [] ⟨"GET", "/api/non-existent", none⟩
          = [⟨404, .msg (some "Route not found")⟩] :=
  unmatched_route_not_found (fun _ => []) [] ⟨"GET", "/api/non-existent", none⟩
    (by decide) rfl (by decide) (by decide) (by decide)

/-! ### The statement of the listing -/

/-- C17: when the order and the sort field pass validation, `selectArticles` issues the
SELECT on topics and then one statement whose text ends with ORDER BY, an allow-listed
field, ASC or DESC, and the LIMIT and OFFSET texts; the text holds `$1` where the topic is
compared and is the same for any two topic filters that are both non-empty or both empty
or absent; the bound values are the topic filter alone when it is non-empty and nothing
otherwise. -/
theorem selectArticles_statement (db : DB) (topicFilter order sortBy limit p : Option String)
    (hv : isAscOrDesc (order.getD "desc") ∧ sortBy.getD "created_at" ∈ sortFields) :
    (∃ field ∈ sortFields, ∃ dir ∈ ["ASC", "DESC"],
        (selectArticles db topicFilter order sortBy limit p).calls
          = [⟨"SELECT slug FROM topics", []⟩,
              ⟨articlesSelect ++ (if truthyStr topicFilter then " WHERE topic = $1" else "")
                  ++ " GROUP BY articles.article_id ORDER BY " ++ field ++ " " ++ dir
                  ++ " LIMIT " ++ limit.getD "10" ++ " OFFSET " ++ p.getD "0",
                if truthyStr topicFilter then [topicFilter.getD ""] else []⟩])
      ∧ (∀ other : Option String, truthyStr other = truthyStr topicFilter →
          (selectArticles db other order sortBy limit p).calls.map (·.text)
            = (selectArticles db topicFilter order sortBy limit p).calls.map (·.text))
      ∧ (∀ t : String, topicFilter = some t → t ≠ "" →
          (selectArticles db topicFilter order sortBy limit p).calls.map (·.values)
            = [[], [t]])
      ∧ (topicFilter = none ∨ topicFilter = some "" →
          (selectArticles db topicFilter order sortBy limit p).calls.map (·.values)
            = [[], []]) := by
  have hv' := (valid_iff order sortBy).2 hv
  have hdir : toUpperCase (order.getD "desc") ∈ ["ASC", "DESC"] := by
    have h := hv'
    rw [Bool.and_eq_true, List.contains_iff_exists_mem_beq] at h
    obtain ⟨x, hx, hbeq⟩ := h.1
    have : toUpperCase (order.getD "desc") = x := by simpa using hbeq
    rw [this]
    exact hx
  have hcalls : ∀ tf : Option String, (selectArticles db tf order sortBy limit p).calls
      = [⟨"SELECT slug FROM topics", []⟩,
          ⟨articlesSelect ++ (if truthyStr tf then " WHERE topic = $1" else "")
              ++ " GROUP BY articles.article_id ORDER BY " ++ sortBy.getD "created_at" ++ " "
              ++ toUpperCase (order.getD "desc")
              ++ " LIMIT " ++ limit.getD "10" ++ " OFFSET " ++ p.getD "0",
            if truthyStr tf then [tf.getD ""] else []⟩] := by
    intro tf
    unfold selectArticles
    simp only []
    rw [if_pos hv']
    split
    · rfl
    · split <;> rfl
  refine ⟨⟨_, hv.2, _, hdir, hcalls topicFilter⟩, ?_, ?_, ?_⟩
  · intro other hother
    rw [hcalls other, hcalls topicFilter, hother]
    rfl
  · intro t ht hne
    rw [hcalls topicFilter, ht, truthyStr_some t hne]
    rfl
  · intro h
    rw [hcalls topicFilter]
    rcases h with h | h <;> rw [h] <;> rfl

theorem selectArticles_statement_witness :
    (selectArticles sampleDb (some "mitch") (some "asc") (some "votes") (some "5")
        none).calls.map (·.values) = [[], ["mitch"]]
      ∧ (selectArticles sampleDb (some "cats") (some "asc") (some "votes") (some "5")
          none).calls.map (·.text)
        = (selectArticles sampleDb (some "mitch") (some "asc") (some "votes") (some "5")
          none).calls.map (·.text) :=
  have h := selectArticles_statement sampleDb (some "mitch") (some "asc") (some "votes")
    (some "5") none ⟨(orderAccepted_iff _).1 (by decide), by decide⟩
  ⟨h.2.2.1 "mitch" rfl (by decide), h.2.1 (some "cats") rfl⟩

/-! ### Pagination -/

theorem selectComments_outcome (db : DB) (aid : String) (n : Int) (limit p : Option String)
    (hid : pgInt aid = some n)
    (hl : absentOrDigits limit = true) (hp : absentOrDigits p = true) :
    (selectCommentsByArticleId db aid limit p).outcome =
      if (decide ((slice (digitsValue (limit.getD "10").data)
            (digitsValue (p.getD "0").data) (orderedComments db n)).length = 0)
          && !(db.articles.map (fun a => toString a.article_id)).contains aid) = true
      then .error articleNotFound
      else .ok (slice (digitsValue (limit.getD "10").data) (digitsValue (p.getD "0").data)
        (orderedComments db n)) := by
  unfold selectCommentsByArticleId queryComments
  simp only []
  rw [pgWindow_digits limit p hl hp]
  simp only [hid, pgSlice_nat]
  rw [apply_ite Run.outcome]
  rfl

/-- C18 (as stated, refuted): with `limit=1` and `p=1`, the slice of the ordered comments
of the unknown article 100000 is empty, and so is the slice of the ordered articles of the
unknown topic `hannah`; the two functions do not resolve to these slices but reject with
404. -/
theorem empty_slice_not_always_returned :
    slice 1 1 (orderedComments sampleDb 100000) = []
      ∧ (selectCommentsByArticleId sampleDb "100000" (some "1") (some "1")).outcome
          = .error articleNotFound
      ∧ slice 1 1 (orderedRows sampleDb (some "hannah") "created_at" "DESC") = []
      ∧ (selectArticles sampleDb (some "hannah") none none (some "1") (some "1")).outcome
          = .error topicNotFound := by
  refine ⟨by decide, rfl, by decide, rfl⟩

/-- C18 (amended): with accepted order and sort field and with `limit` and `p` absent or
runs of digits, `p` is a row offset: whenever the slice of the ordered rows that starts at
row index `p` and has at most `limit` rows is not empty, or the topic filter is a slug of
the topics table (for the comments: the `article_id` is the text of the id of an article),
the function resolves to that slice; and with `limit=1` and `p=1` it resolves to exactly
the second row of the ordering when there is one. -/
theorem p_is_row_offset (db : DB) (topicFilter order sortBy limit p : Option String)
    (aid : String) (n : Int)
    (hv : isAscOrDesc (order.getD "desc") ∧ sortBy.getD "created_at" ∈ sortFields)
    (hl : absentOrDigits limit = true) (hp : absentOrDigits p = true)
    (hid : pgInt aid = some n) :
    ((slice (digitsValue (limit.getD "10").data) (digitsValue (p.getD "0").data)
          (orderedRows db (if truthyStr topicFilter then topicFilter else none)
            (sortBy.getD "created_at") (toUpperCase (order.getD "desc"))) ≠ []
        ∨ includes (db.topics.map (·.slug)) topicFilter = true) →
      (selectArticles db topicFilter order sortBy limit p).outcome
        = .ok (slice (digitsValue (limit.getD "10").data) (digitsValue (p.getD "0").data)
            (orderedRows db (if truthyStr topicFilter then topicFilter else none)
              (sortBy.getD "created_at") (toUpperCase (order.getD "desc")))))
      ∧ ((slice (digitsValue (limit.getD "10").data) (digitsValue (p.getD "0").data)
          (orderedComments db n) ≠ []
        ∨ (db.articles.map (fun a => toString a.article_id)).contains aid = true) →
      (selectCommentsByArticleId db aid limit p).outcome
        = .ok (slice (digitsValue (limit.getD "10").data) (digitsValue (p.getD "0").data)
            (orderedComments db n)))
      ∧ (∀ r0 r1 rest,
          orderedRows db (if truthyStr topicFilter then topicFilter else none)
            (sortBy.getD "created_at") (toUpperCase (order.getD "desc")) = r0 :: r1 :: rest →
          (selectArticles db topicFilter order sortBy (some "1") (some "1")).outcome
            = .ok [r1])
      ∧ (∀ c0 c1 rest, orderedComments db n = c0 :: c1 :: rest →
          (selectCommentsByArticleId db aid (some "1") (some "1")).outcome = .ok [c1]) := by
  have hone : absentOrDigits (some "1") = true := by decide
  have hval : digitsValue ((some "1" : Option String).getD "10").data = 1
      ∧ digitsValue ((some "1" : Option String).getD "0").data = 1 := by decide
  refine ⟨?_, ?_, ?_, ?_⟩
  · intro h
    rw [selectArticles_outcome db topicFilter order sortBy limit p hv hl hp _ rfl]
    rw [if_neg]
    · rfl
    · rw [Bool.and_eq_true, decide_eq_true_eq]
      rintro ⟨h0, hinc⟩
      rcases h with h | h
      · exact h (List.length_eq_zero.1 h0)
      · rw [h] at hinc
        exact absurd hinc (by decide)
  · intro h
    rw [selectComments_outcome db aid n limit p hid hl hp, if_neg]
    rw [Bool.and_eq_true, decide_eq_true_eq]
    rintro ⟨h0, hinc⟩
    rcases h with h | h
    · exact h (List.length_eq_zero.1 h0)
    · rw [h] at hinc
      exact absurd hinc (by decide)
  · intro r0 r1 rest hrows
    rw [selectArticles_outcome db topicFilter order sortBy (some "1") (some "1") hv hone hone
      [r1] (by rw [hrows, hval.1, hval.2]; rfl)]
    rfl
  · intro c0 c1 rest hrows
    rw [selectComments_outcome db aid n (some "1") (some "1") hid hone hone, hrows,
      hval.1, hval.2]
    rfl

theorem p_is_row_offset_witness :
    (selectArticles sampleDb none none none (some "1") (some "1")).outcome
        = .ok [⟨1, "Living in the shadow of a great man", "mitch",
            "I find this existence challenging", 1594329060, 100, "i1", 2⟩]
      ∧ (selectCommentsByArticleId sampleDb "1" (some "1") (some "1")).outcome
        = .ok [⟨2, 14, 1604113380, "butter_bridge",
            "The beautiful thing about treasure is that it exists."⟩] :=
  have h := p_is_row_offset sampleDb none none none (some "1") (some "1") "1" 1
    ⟨(orderAccepted_iff _).1 (by decide), by decide⟩ (by decide) (by decide) (by decide)
  ⟨h.2.2.1
      ⟨5, "UNCOVERED: catspiracy to bring down democracy", "cats", "Bastet walks amongst us",
        1596464040, 0, "i5", 0⟩ _
      [⟨11, "Am I a cat?", "mitch", "Having run out of ideas for articles", 1579126860, 0,
        "i11", 0⟩] (by decide),
    h.2.2.2 ⟨5, 0, 1604437200, "icellusedkars", "I hate streaming noses"⟩ _ [] (by decide)⟩

end Blog
